import Mathlib

/-!
TensorFlow lowering utilities: device registry and device placement.

A shallow embedding of `lib/SILOptimizer/Mandatory/TFUtilities.h`
(namespace `swift::tf`) together with theorems about the device registry
(`OpDeviceType`, `getDeviceString`, `getDeviceShortName`), about
`GraphGlobalConfiguration::handleDevicePlacement`, about
`isValidTensorFlowElementType` and `SILTensorOpInfo::isInput`, and about
`SILTensorOpInfo::decode` and `canonicalizeOperands`, which the header only
declares and which are modelled from the specification.

Conventions of the embedding:

* `StringRef` and `std::string` are `String`; `+=` on a `std::string` is `++`.
* `std::unordered_set<DeviceType>` is `Finset DeviceType`.
* A failed `assert` and a reached `llvm_unreachable` abort the call; a function
  that can abort returns `Except Abort _`.
* Reference parameters that the callee mutates (`this`, `B`, `operands`,
  `newInstName`) are passed in and returned in the result record.
-/

namespace swift.tf

/-! Section: Device registry -/

/-- The C++ `enum class DeviceType { CPU, GPU, TPU }`. -/
inductive DeviceType
  | CPU
  | GPU
  | TPU
  deriving DecidableEq, Repr

/-- The two ways a call can stop without returning. -/
inductive Abort
  | unreachable (msg : String)
  | assertion (cond : String)
  deriving DecidableEq, Repr

deriving instance DecidableEq for Except

def DEFAULT_CPU_DEVICE : String := "/device:CPU:0"
def DEFAULT_GPU_DEVICE : String := "/device:GPU:0"
def DEFAULT_TPU_DEVICE : String := "TPU_SYSTEM"
def DEVICE_ATTR : String := "device"

/-- The C++ `OpDeviceType`: three string comparisons, then `llvm_unreachable`. -/
def OpDeviceType (device : String) : Except Abort DeviceType :=
  if device = DEFAULT_CPU_DEVICE then .ok DeviceType.CPU
  else if device = DEFAULT_GPU_DEVICE then .ok DeviceType.GPU
  else if device = DEFAULT_TPU_DEVICE then .ok DeviceType.TPU
  else .error (Abort.unreachable "Unknown device type")

/-- The C++ `getDeviceString`: the TF device name used in TF graphs. -/
def getDeviceString (deviceType : DeviceType) : String :=
  match deviceType with
  | DeviceType.CPU => DEFAULT_CPU_DEVICE
  | DeviceType.GPU => DEFAULT_GPU_DEVICE
  | DeviceType.TPU => DEFAULT_TPU_DEVICE

/-- The C++ `getDeviceShortName`: usable to construct SIL function names. -/
def getDeviceShortName (deviceType : DeviceType) : String :=
  match deviceType with
  | DeviceType.CPU => "CPU"
  | DeviceType.GPU => "GPU"
  | DeviceType.TPU => "TPU"

/-! Section: The SIL values the placement code touches -/

/-- Modelled from the spec: `SILLocation` (swift/SIL/SILLocation.h) is not part
of the source; placement only passes it on to the string literal it creates. -/
structure SILLocation where
  id : Nat
  deriving DecidableEq, Repr

/-- Modelled from the spec: `StringLiteralInst::Encoding` is not part of the
source; placement only ever uses `UTF8`. -/
inductive Encoding
  | UTF8
  | UTF16
  | ObjCSelector
  deriving DecidableEq, Repr

/-- Modelled from the spec: the "literal string node carrying the canonical
device string"; `StringLiteralInst` itself is not part of the source. -/
structure StringLiteralInst where
  loc : SILLocation
  value : String
  encoding : Encoding
  deriving DecidableEq, Repr

/-- Modelled from the spec: `SILValue` is not part of the source. An operand is
either the result of a string literal instruction or some other value, which
placement never inspects. -/
inductive SILValue
  | other (id : Nat)
  | stringLiteral (inst : StringLiteralInst)
  deriving DecidableEq, Repr

/-- Modelled from the spec: `SILBuilder` is not part of the source. The builder
is the sequence of instructions created through it so far. -/
structure SILBuilder where
  created : List StringLiteralInst
  deriving DecidableEq, Repr

/-- Modelled from the spec: `SILBuilder::createStringLiteral` builds the literal
string node, records it in the builder and returns it. -/
def SILBuilder.createStringLiteral (B : SILBuilder) (loc : SILLocation)
    (text : String) (encoding : Encoding) : StringLiteralInst × SILBuilder :=
  let inst : StringLiteralInst := ⟨loc, text, encoding⟩
  (inst, ⟨B.created ++ [inst]⟩)

/-! Section: Graph configuration and device placement -/

/-- The C++ `struct GraphGlobalConfiguration`, with its default member values. -/
structure GraphGlobalConfiguration where
  deviceType : DeviceType := DeviceType.CPU
  isTPUInfeedEnabled : Bool := false
  usedDeviceTypes : Finset DeviceType := ∅
  deriving DecidableEq

namespace GraphGlobalConfiguration

/-- The C++ `isTPUEnabled`. -/
def isTPUEnabled (self : GraphGlobalConfiguration) : Bool :=
  decide (self.deviceType = DeviceType.TPU)

/-- The C++ private member `chooseDevice`: an explicit device goes through
`OpDeviceType`, otherwise the configuration's device is taken. -/
def chooseDevice (self : GraphGlobalConfiguration) (_opType opDevice : String) :
    Except Abort DeviceType :=
  if !opDevice.isEmpty then OpDeviceType opDevice
  else .ok self.deviceType

end GraphGlobalConfiguration

/-- What a returning call of `handleDevicePlacement` leaves behind: the returned
`bool` and the new values of everything passed by reference. -/
structure PlacementResult where
  returned : Bool
  self : GraphGlobalConfiguration
  B : SILBuilder
  operands : List SILValue
  newInstName : String
  deriving DecidableEq

/-- The C++ `GraphGlobalConfiguration::handleDevicePlacement`. -/
def GraphGlobalConfiguration.handleDevicePlacement (self : GraphGlobalConfiguration)
    (opType opDevice : String) (B : SILBuilder) (loc : SILLocation)
    (operands : List SILValue) (newInstName : String) : Except Abort PlacementResult :=
  if opType = "tfc.scalarToTensor" then
    if opDevice.isEmpty then .ok ⟨false, self, B, operands, newInstName⟩
    else .error (Abort.assertion "opDevice.empty()")
  else
    match self.chooseDevice opType opDevice with
    | .error e => .error e
    | .ok chosenDevice =>
      let self1 : GraphGlobalConfiguration :=
        { self with usedDeviceTypes := insert chosenDevice self.usedDeviceTypes }
      let deviceString := getDeviceString chosenDevice
      let created := B.createStringLiteral loc deviceString Encoding.UTF8
      .ok ⟨opDevice.isEmpty, self1, created.2,
           operands ++ [SILValue.stringLiteral created.1], newInstName ++ ",device"⟩

/-! Section: Sequences of placements on one configuration -/

/-- The arguments of one call of `handleDevicePlacement`, the configuration and
the builder apart. -/
structure PlacementCall where
  opType : String
  opDevice : String
  loc : SILLocation
  operands : List SILValue
  newInstName : String
  deriving DecidableEq

/-- Calls of `handleDevicePlacement` made one after the other on the same
configuration and builder; the first call that aborts aborts the sequence. -/
def runPlacements (cfg : GraphGlobalConfiguration) (B : SILBuilder) :
    List PlacementCall →
      Except Abort (GraphGlobalConfiguration × SILBuilder × List PlacementResult)
  | [] => .ok (cfg, B, [])
  | c :: cs =>
    match cfg.handleDevicePlacement c.opType c.opDevice B c.loc c.operands c.newInstName with
    | .error e => .error e
    | .ok r =>
      match runPlacements r.self r.B cs with
      | .error e => .error e
      | .ok (cfg1, B1, rs) => .ok (cfg1, B1, r :: rs)

/-- The text of an operand that is a string literal. -/
def SILValue.literalText : SILValue → Option String
  | SILValue.stringLiteral inst => some inst.value
  | SILValue.other _ => none

/-- The device strings a call appended: the string literals among the operands
that the call added behind the operands it was given. -/
def appendedDeviceStrings (c : PlacementCall) (r : PlacementResult) : List String :=
  (r.operands.drop c.operands.length).filterMap SILValue.literalText

/-- The device kinds named by a list of device strings. -/
def deviceKindsOf (strings : List String) : List DeviceType :=
  strings.filterMap fun s =>
    match OpDeviceType s with
    | .ok d => some d
    | .error _ => none

/-- The set of device kinds resolved by a sequence of calls, read off the device
strings the calls appended. -/
def resolvedDeviceKinds : List PlacementCall → List PlacementResult → Finset DeviceType
  | c :: cs, r :: rs =>
    (deviceKindsOf (appendedDeviceStrings c r)).toFinset ∪ resolvedDeviceKinds cs rs
  | _, _ => ∅

/-! Section: Placement statement by statement -/

/-- Everything a call of `handleDevicePlacement` can write to: the configuration
(`this`), the builder, the operand vector and the instruction name. -/
structure PlacementState where
  self : GraphGlobalConfiguration
  B : SILBuilder
  operands : List SILValue
  newInstName : String
  deriving DecidableEq

/-- The C++ `GraphGlobalConfiguration::handleDevicePlacement` once more, one
statement after the other on an explicit state, keeping the state the call has
reached when it stops: at the `return`, or at the failed `assert` or the
`llvm_unreachable` inside `chooseDevice`. -/
def handleDevicePlacementSteps (s0 : PlacementState) (opType opDevice : String)
    (loc : SILLocation) : PlacementState × Except Abort Bool :=
  if opType = "tfc.scalarToTensor" then
    -- assert(opDevice.empty()); return false;
    if opDevice.isEmpty then (s0, .ok false)
    else (s0, .error (Abort.assertion "opDevice.empty()"))
  else
    -- auto chosenDevice = chooseDevice(opType, opDevice);
    match s0.self.chooseDevice opType opDevice with
    | .error e => (s0, .error e)
    | .ok chosenDevice =>
      -- usedDeviceTypes.insert(chosenDevice);
      let s1 : PlacementState :=
        { s0 with self :=
            { s0.self with usedDeviceTypes := insert chosenDevice s0.self.usedDeviceTypes } }
      -- auto deviceString = getDeviceString(chosenDevice);
      let deviceString := getDeviceString chosenDevice
      -- auto deviceStrInst = B.createStringLiteral(loc, deviceString, UTF8);
      let created := s1.B.createStringLiteral loc deviceString Encoding.UTF8
      let s2 : PlacementState := { s1 with B := created.2 }
      -- operands.push_back(deviceStrInst);
      let s3 : PlacementState :=
        { s2 with operands := s2.operands ++ [SILValue.stringLiteral created.1] }
      -- newInstName += ",device";
      let s4 : PlacementState := { s3 with newInstName := s3.newInstName ++ ",device" }
      -- return opDevice.empty();
      (s4, .ok opDevice.isEmpty)

/-! Section: Element types -/

/-- The C++ inline `isValidTensorFlowElementType`. The header only declares
`convertSwiftTypeToTF`, so the dtype mapping is a parameter, over any type of
Swift types; its `unsigned` codes are natural numbers. -/
def isValidTensorFlowElementType {SwiftType : Type} (convertSwiftTypeToTF : SwiftType → Nat)
    (ty : SwiftType) : Bool :=
  convertSwiftTypeToTF ty != 0

/-! Section: Tensor op descriptors -/

/-- The C++ `enum class SILTensorOpInfo::OperandClass`. -/
inductive OperandClass
  | Input
  | InputElt
  | Normal
  | DType
  | Tensor
  | Shape
  | Array
  | ArrayElement
  | ShapeArray
  deriving DecidableEq, Repr

/-- Modelled from the spec: `BuiltinInst` is not part of the source. A builtin
node has its symbolic name, its operand list, its location and the
explicit-device field of the spec, empty when no device was set. -/
structure BuiltinInst where
  name : String
  operands : List SILValue
  loc : SILLocation
  opDevice : String
  deriving DecidableEq, Repr

/-- The C++ `struct SILTensorOpInfo`: the instruction, the name of the whole
builtin, the TensorFlow name of the op, and one record per operand. -/
structure SILTensorOpInfo where
  inst : BuiltinInst
  builtinName : String
  opName : String
  operandClasses : List (String × OperandClass)
  deriving DecidableEq, Repr

/-- The C++ `SILTensorOpInfo::isInput`. Indexing a `SmallVector` past its size
fails the assertion of its `operator[]`. -/
def SILTensorOpInfo.isInput (self : SILTensorOpInfo) (operandNumber : Nat) :
    Except Abort Bool :=
  match self.operandClasses[operandNumber]? with
  | none => .error (Abort.assertion "idx < size()")
  | some entry =>
    .ok (entry.2 == OperandClass.Input || entry.2 == OperandClass.InputElt)

/-! Section: Decoding and canonicalization -/

/-- The test of `isInput` on a class: `Input` or `InputElt`. -/
def OperandClass.isInputClass (c : OperandClass) : Bool :=
  c == OperandClass.Input || c == OperandClass.InputElt

/-- Modelled from the spec: the three lookups that the header declares and does
not define. `getOperandClass` is the fixed string table from a modifier suffix
to its operand class (section 4.1, step 1); `isListMarker` tells the array/list
marker operand that starts a tensor-list input (step 3); `getAttrOperand` finds
the literal-producing instruction behind an attribute operand, if there is one
(section 4.2). -/
structure DecoderTables where
  getOperandClass : String → Option OperandClass
  isListMarker : SILValue → Bool
  getAttrOperand : SILValue → Option SILValue

/-- Modelled from the spec: an IR instruction is a builtin node or something
else, which decoding passes over. `SILInstruction` is not part of the source. -/
inductive SILInstruction
  | builtin (inst : BuiltinInst)
  | other (id : Nat)
  deriving DecidableEq, Repr

/-- Modelled from the spec: the three results of `decode` (sections 4.1 and 7):
"not a tensor op" (the silent `none`), a malformed-signature diagnostic, or the
descriptor. -/
inductive DecodeResult
  | notTensorOp
  | malformed (diagnostic : String)
  | decoded (info : SILTensorOpInfo)
  deriving DecidableEq, Repr

/-- Modelled from the spec: the naming grammar `op_name{,suffix}*` (section 4.1):
the pieces of a symbolic name between its commas, the op name first. -/
def splitAtCommas : List Char → List (List Char)
  | [] => [[]]
  | c :: cs =>
    if c = ',' then [] :: splitAtCommas cs
    else
      match splitAtCommas cs with
      | [] => [[c]]
      | piece :: pieces => (c :: piece) :: pieces

/-- Modelled from the spec: every modifier suffix is looked up in the fixed
table, in declaration order; a suffix with no entry fails the whole lookup
(section 4.1, step 2). -/
def classifySuffixes (getOperandClass : String → Option OperandClass) :
    List String → Option (List (String × OperandClass))
  | [] => some []
  | suffix :: suffixes =>
    match getOperandClass suffix with
    | none => none
    | some opClass =>
      match classifySuffixes getOperandClass suffixes with
      | none => none
      | some classes => some ((suffix, opClass) :: classes)

/-- Modelled from the spec: the operands before the attributes are inputs; a
single array/list marker operand followed by zero or more `InputElt` operands is
one tensor-list input (section 4.1, step 3). -/
def classifyInputs (isListMarker : SILValue → Bool) : List SILValue → List OperandClass
  | [] => []
  | v :: vs =>
    if isListMarker v then OperandClass.Input :: vs.map fun _ => OperandClass.InputElt
    else OperandClass.Input :: classifyInputs isListMarker vs

/-- Modelled from the spec: the ordering the decoder must enforce (section 3):
`Input` and `InputElt` operands precede all attribute operands. -/
def inputsPrecedeAttributes (classes : List OperandClass) : Bool :=
  (classes.dropWhile OperandClass.isInputClass).all fun c => !c.isInputClass

/-- Modelled from the spec: `SILTensorOpInfo::decode` (section 4.1), declared in
the header without a body. An instruction that is no builtin, or whose name has
no op name, is "not a tensor op". A suffix with no table entry, a suffix without
a trailing operand of its own, or an input behind an attribute is a malformed
signature. Otherwise the descriptor has one record per operand: the inputs, then
one attribute per suffix. -/
def SILTensorOpInfo.decode (T : DecoderTables) : SILInstruction → DecodeResult
  | SILInstruction.other _ => DecodeResult.notTensorOp
  | SILInstruction.builtin inst =>
    match splitAtCommas inst.name.data with
    | [] => DecodeResult.notTensorOp
    | opName :: suffixes =>
      if opName = [] then DecodeResult.notTensorOp
      else
        match classifySuffixes T.getOperandClass (suffixes.map String.mk) with
        | none => DecodeResult.malformed "unknown modifier suffix"
        | some attributes =>
          if inst.operands.length < attributes.length then
            DecodeResult.malformed "modifier suffix without an operand"
          else
            let inputs := inst.operands.take (inst.operands.length - attributes.length)
            let classes :=
              ((classifyInputs T.isListMarker inputs).map fun c => ("", c)) ++ attributes
            if inputsPrecedeAttributes (classes.map Prod.snd) then
              DecodeResult.decoded ⟨inst, inst.name, String.mk opName, classes⟩
            else DecodeResult.malformed "input operand after an attribute operand"

/-- Modelled from the spec: the operand rewriting of the canonicalizer (section
4.2). An attribute operand is replaced by the literal-producing instruction
behind it, where `getAttrOperand` finds one; inputs stay as they are. -/
def rewriteOperands (T : DecoderTables) :
    List SILValue → List (String × OperandClass) → List SILValue
  | [], _ => []
  | v :: vs, [] => v :: vs
  | v :: vs, entry :: entries =>
    (if entry.2.isInputClass then v else (T.getAttrOperand v).getD v) ::
      rewriteOperands T vs entries

/-- Modelled from the spec: `SILTensorOpInfo::canonicalizeOperands` (section
4.2), declared in the header without a body. The attribute operands are
rewritten, and when a configuration is supplied the op is placed by
`handleDevicePlacement`, with the op name and the explicit device of the
instruction; the new instruction takes the name and operands that placement
leaves. The removal of dead array construction code touches other instructions
only and is left out. The result is the new instruction with the configuration
and the builder after the call. -/
def SILTensorOpInfo.canonicalizeOperands (T : DecoderTables) (self : SILTensorOpInfo)
    (configuration : Option GraphGlobalConfiguration) (B : SILBuilder) :
    Except Abort (BuiltinInst × Option GraphGlobalConfiguration × SILBuilder) :=
  let operands := rewriteOperands T self.inst.operands self.operandClasses
  match configuration with
  | none => .ok (⟨self.builtinName, operands, self.inst.loc, self.inst.opDevice⟩, none, B)
  | some cfg =>
    match cfg.handleDevicePlacement self.opName self.inst.opDevice B self.inst.loc operands
        self.builtinName with
    | .error e => .error e
    | .ok r =>
      let device :=
        match (r.operands.drop operands.length).filterMap SILValue.literalText with
        | [] => self.inst.opDevice
        | text :: _ => text
      .ok (⟨r.newInstName, r.operands, self.inst.loc, device⟩, some r.self, r.B)

/-- An example of the lookups: the suffixes the spec names ("dtype", "tensor",
"shape", and "device" for the device operand, of class `Normal`), operand 100 as
the list marker, and operands from 200 on standing for indirect attribute
operands whose literal is the operand 1000 further on. -/
def exampleTables : DecoderTables where
  getOperandClass := fun suffix =>
    if suffix = "dtype" then some OperandClass.DType
    else if suffix = "tensor" then some OperandClass.Tensor
    else if suffix = "shape" then some OperandClass.Shape
    else if suffix = "device" then some OperandClass.Normal
    else none
  isListMarker := fun v => decide (v = SILValue.other 100)
  getAttrOperand := fun v =>
    match v with
    | SILValue.other n => if 200 ≤ n ∧ n < 1000 then some (SILValue.other (n + 1000)) else some v
    | SILValue.stringLiteral _ => some v

/-! Section: Basic facts -/

theorem getDeviceString_ne_empty (d : DeviceType) : (getDeviceString d).isEmpty = false := by
  cases d <;> decide

theorem OpDeviceType_getDeviceString (d : DeviceType) :
    OpDeviceType (getDeviceString d) = .ok d := by
  cases d <;> decide

theorem OpDeviceType_ok_iff (s : String) (d : DeviceType) :
    OpDeviceType s = .ok d ↔ s = getDeviceString d := by
  constructor
  · intro h
    unfold OpDeviceType at h
    split at h
    · cases h; assumption
    · split at h
      · cases h; assumption
      · split at h
        · cases h; assumption
        · cases h
  · rintro rfl
    exact OpDeviceType_getDeviceString d

theorem OpDeviceType_error_of_not_canonical (s : String)
    (h1 : s ≠ "/device:CPU:0") (h2 : s ≠ "/device:GPU:0") (h3 : s ≠ "TPU_SYSTEM") :
    OpDeviceType s = .error (Abort.unreachable "Unknown device type") := by
  unfold OpDeviceType DEFAULT_CPU_DEVICE DEFAULT_GPU_DEVICE DEFAULT_TPU_DEVICE
  rw [if_neg h1, if_neg h2, if_neg h3]

theorem isEmpty_eq_false_of_ne {s : String} (h : s ≠ "") : s.isEmpty = false := by
  cases hs : s.isEmpty
  · rfl
  · exact absurd ((String.isEmpty_iff s).mp hs) h

theorem isEmpty_eq_false_of_OpDeviceType {s : String} {d : DeviceType}
    (h : OpDeviceType s = .ok d) : s.isEmpty = false := by
  rw [(OpDeviceType_ok_iff s d).mp h]
  exact getDeviceString_ne_empty d

/-- With no explicit device, an op that is not the pseudo-op is placed on the
device of the configuration. -/
theorem handleDevicePlacement_of_empty (self : GraphGlobalConfiguration) (opType : String)
    (B : SILBuilder) (loc : SILLocation) (operands : List SILValue) (newInstName : String)
    (h : opType ≠ "tfc.scalarToTensor") :
    self.handleDevicePlacement opType "" B loc operands newInstName =
      .ok ⟨true, { self with usedDeviceTypes := insert self.deviceType self.usedDeviceTypes },
           ⟨B.created ++ [⟨loc, getDeviceString self.deviceType, Encoding.UTF8⟩]⟩,
           operands ++ [SILValue.stringLiteral
             ⟨loc, getDeviceString self.deviceType, Encoding.UTF8⟩],
           newInstName ++ ",device"⟩ := by
  have he : ("" : String).isEmpty = true := by decide
  simp [GraphGlobalConfiguration.handleDevicePlacement, GraphGlobalConfiguration.chooseDevice,
    SILBuilder.createStringLiteral, h, he]

/-- With a device string that names the kind `d`, an op that is not the
pseudo-op is placed on `d`. -/
theorem handleDevicePlacement_of_explicit (self : GraphGlobalConfiguration)
    (opType opDevice : String) (d : DeviceType)
    (B : SILBuilder) (loc : SILLocation) (operands : List SILValue) (newInstName : String)
    (h : opType ≠ "tfc.scalarToTensor") (hd : OpDeviceType opDevice = .ok d) :
    self.handleDevicePlacement opType opDevice B loc operands newInstName =
      .ok ⟨false, { self with usedDeviceTypes := insert d self.usedDeviceTypes },
           ⟨B.created ++ [⟨loc, opDevice, Encoding.UTF8⟩]⟩,
           operands ++ [SILValue.stringLiteral ⟨loc, opDevice, Encoding.UTF8⟩],
           newInstName ++ ",device"⟩ := by
  have he : opDevice.isEmpty = false := isEmpty_eq_false_of_OpDeviceType hd
  have hs : getDeviceString d = opDevice := ((OpDeviceType_ok_iff opDevice d).mp hd).symm
  simp [GraphGlobalConfiguration.handleDevicePlacement, GraphGlobalConfiguration.chooseDevice,
    SILBuilder.createStringLiteral, h, he, hd, hs]

/-- The pseudo-op with no explicit device: the call returns `false` and changes
nothing. -/
theorem handleDevicePlacement_of_scalarToTensor (self : GraphGlobalConfiguration)
    (B : SILBuilder) (loc : SILLocation) (operands : List SILValue) (newInstName : String) :
    self.handleDevicePlacement "tfc.scalarToTensor" "" B loc operands newInstName =
      .ok ⟨false, self, B, operands, newInstName⟩ := by
  have he : ("" : String).isEmpty = true := by decide
  simp [GraphGlobalConfiguration.handleDevicePlacement, he]

/-- The pseudo-op with an explicit device: the assertion fails. -/
theorem handleDevicePlacement_of_scalarToTensor_device (self : GraphGlobalConfiguration)
    (opDevice : String) (B : SILBuilder) (loc : SILLocation) (operands : List SILValue)
    (newInstName : String) (hd : opDevice ≠ "") :
    self.handleDevicePlacement "tfc.scalarToTensor" opDevice B loc operands newInstName =
      .error (Abort.assertion "opDevice.empty()") := by
  simp [GraphGlobalConfiguration.handleDevicePlacement, isEmpty_eq_false_of_ne hd]

/-- An explicit device string that names no device kind: the call aborts. -/
theorem handleDevicePlacement_of_unknown (self : GraphGlobalConfiguration)
    (opType opDevice : String) (B : SILBuilder) (loc : SILLocation)
    (operands : List SILValue) (newInstName : String)
    (h : opType ≠ "tfc.scalarToTensor") (hd : opDevice ≠ "")
    (h1 : opDevice ≠ "/device:CPU:0") (h2 : opDevice ≠ "/device:GPU:0")
    (h3 : opDevice ≠ "TPU_SYSTEM") :
    self.handleDevicePlacement opType opDevice B loc operands newInstName =
      .error (Abort.unreachable "Unknown device type") := by
  simp [GraphGlobalConfiguration.handleDevicePlacement, GraphGlobalConfiguration.chooseDevice,
    h, isEmpty_eq_false_of_ne hd, OpDeviceType_error_of_not_canonical opDevice h1 h2 h3]

/-- Every returning call took one of the two paths of the code: the early return
for the pseudo-op, or the placement on a chosen device. -/
theorem handleDevicePlacement_ok_cases {self : GraphGlobalConfiguration}
    {opType opDevice : String} {B : SILBuilder} {loc : SILLocation}
    {operands : List SILValue} {newInstName : String} {r : PlacementResult}
    (hr : self.handleDevicePlacement opType opDevice B loc operands newInstName = .ok r) :
    (opType = "tfc.scalarToTensor" ∧ opDevice.isEmpty = true ∧
      r = ⟨false, self, B, operands, newInstName⟩) ∨
    (opType ≠ "tfc.scalarToTensor" ∧ ∃ d, self.chooseDevice opType opDevice = .ok d ∧
      r = ⟨opDevice.isEmpty, { self with usedDeviceTypes := insert d self.usedDeviceTypes },
           ⟨B.created ++ [⟨loc, getDeviceString d, Encoding.UTF8⟩]⟩,
           operands ++ [SILValue.stringLiteral ⟨loc, getDeviceString d, Encoding.UTF8⟩],
           newInstName ++ ",device"⟩) := by
  unfold GraphGlobalConfiguration.handleDevicePlacement at hr
  split at hr
  · rename_i ht
    left
    split at hr
    · rename_i he
      cases hr
      exact ⟨ht, he, rfl⟩
    · cases hr
  · rename_i ht
    right
    refine ⟨ht, ?_⟩
    split at hr
    · cases hr
    · rename_i d hd
      cases hr
      exact ⟨d, hd, rfl⟩

theorem deviceKindsOf_getDeviceString (d : DeviceType) :
    deviceKindsOf [getDeviceString d] = [d] := by
  simp [deviceKindsOf, OpDeviceType_getDeviceString]

/-- One returning call adds to the used-device set exactly the kinds named by the
device strings it appended. -/
theorem usedDeviceTypes_step {self : GraphGlobalConfiguration} {c : PlacementCall}
    {B : SILBuilder} {r : PlacementResult}
    (hr : self.handleDevicePlacement c.opType c.opDevice B c.loc c.operands c.newInstName
      = .ok r) :
    r.self.usedDeviceTypes =
      self.usedDeviceTypes ∪ (deviceKindsOf (appendedDeviceStrings c r)).toFinset := by
  rcases handleDevicePlacement_ok_cases hr with ⟨_, _, rfl⟩ | ⟨_, d, _, rfl⟩
  · simp [appendedDeviceStrings, deviceKindsOf]
  · have hk : appendedDeviceStrings c
        ⟨c.opDevice.isEmpty, { self with usedDeviceTypes := insert d self.usedDeviceTypes },
         ⟨B.created ++ [⟨c.loc, getDeviceString d, Encoding.UTF8⟩]⟩,
         c.operands ++ [SILValue.stringLiteral ⟨c.loc, getDeviceString d, Encoding.UTF8⟩],
         c.newInstName ++ ",device"⟩ = [getDeviceString d] := by
      simp [appendedDeviceStrings, SILValue.literalText]
    rw [hk, deviceKindsOf_getDeviceString]
    ext x
    simp [Finset.mem_insert, or_comm]

/-- A returning sequence of calls: one result per call, and a used-device set
that is the starting set together with the kinds the calls resolved. -/
theorem runPlacements_usedDeviceTypes (cs : List PlacementCall) :
    ∀ (cfg : GraphGlobalConfiguration) (B : SILBuilder) (cfg1 : GraphGlobalConfiguration)
      (B1 : SILBuilder) (rs : List PlacementResult),
      runPlacements cfg B cs = .ok (cfg1, B1, rs) →
      rs.length = cs.length ∧
      cfg1.usedDeviceTypes = cfg.usedDeviceTypes ∪ resolvedDeviceKinds cs rs := by
  induction cs with
  | nil =>
    intro cfg B cfg1 B1 rs h
    simp only [runPlacements] at h
    cases h
    simp [resolvedDeviceKinds]
  | cons c cs ih =>
    intro cfg B cfg1 B1 rs h
    simp only [runPlacements] at h
    split at h
    · cases h
    · rename_i r hr
      split at h
      · cases h
      · rename_i cfg2 B2 rs2 hrest
        cases h
        obtain ⟨hlen, hused⟩ := ih r.self r.B cfg1 B1 rs2 hrest
        refine ⟨by simp [hlen], ?_⟩
        rw [hused, usedDeviceTypes_step hr]
        simp [resolvedDeviceKinds, Finset.union_assoc]

/-! Section: Claims about a single placement -/

/-- C1. Default placement: for an op type other than "tfc.scalarToTensor", a call
with an empty `opDevice` returns `true`, appends exactly one string literal whose
value is `getDeviceString` of the configuration's device type, appends ",device"
to `newInstName`, and leaves the configuration's (unchanged) device type a member
of `usedDeviceTypes`. -/
theorem handleDevicePlacement_default (self : GraphGlobalConfiguration) (opType : String)
    (B : SILBuilder) (loc : SILLocation) (operands : List SILValue) (newInstName : String)
    (h : opType ≠ "tfc.scalarToTensor") :
    ∃ r inst, self.handleDevicePlacement opType "" B loc operands newInstName = .ok r ∧
      r.returned = true ∧
      r.operands = operands ++ [SILValue.stringLiteral inst] ∧
      inst.value = getDeviceString self.deviceType ∧
      r.newInstName = newInstName ++ ",device" ∧
      r.self.deviceType = self.deviceType ∧
      self.deviceType ∈ r.self.usedDeviceTypes :=
  ⟨_, ⟨loc, getDeviceString self.deviceType, Encoding.UTF8⟩,
    handleDevicePlacement_of_empty self opType B loc operands newInstName h,
    rfl, rfl, rfl, rfl, rfl, Finset.mem_insert_self _ _⟩

/-- C1, at the op "Add" with two operands and a configuration targeting GPU: the
hypothesis holds, and the call gives the name "Add,device", a third operand
"/device:GPU:0", and a used-device set holding exactly GPU. -/
theorem handleDevicePlacement_default_witness :
    ("Add" ≠ "tfc.scalarToTensor") ∧
    (∃ r inst, ({ deviceType := DeviceType.GPU } : GraphGlobalConfiguration).handleDevicePlacement
        "Add" "" ⟨[]⟩ ⟨7⟩ [SILValue.other 0, SILValue.other 1] "Add" = .ok r ∧
      r.returned = true ∧
      r.operands = [SILValue.other 0, SILValue.other 1] ++ [SILValue.stringLiteral inst] ∧
      inst.value = getDeviceString DeviceType.GPU ∧
      r.newInstName = "Add" ++ ",device" ∧
      r.self.deviceType = DeviceType.GPU ∧
      DeviceType.GPU ∈ r.self.usedDeviceTypes) ∧
    ({ deviceType := DeviceType.GPU } : GraphGlobalConfiguration).handleDevicePlacement
        "Add" "" ⟨[]⟩ ⟨7⟩ [SILValue.other 0, SILValue.other 1] "Add" =
      .ok ⟨true, { deviceType := DeviceType.GPU, usedDeviceTypes := {DeviceType.GPU} },
           ⟨[⟨⟨7⟩, "/device:GPU:0", Encoding.UTF8⟩]⟩,
           [SILValue.other 0, SILValue.other 1,
            SILValue.stringLiteral ⟨⟨7⟩, "/device:GPU:0", Encoding.UTF8⟩],
           "Add,device"⟩ :=
  ⟨by decide,
   handleDevicePlacement_default { deviceType := DeviceType.GPU } "Add" ⟨[]⟩ ⟨7⟩
     [SILValue.other 0, SILValue.other 1] "Add" (by decide),
   by decide⟩

/-- C2. An explicit device is respected verbatim: for an op type other than
"tfc.scalarToTensor" and an `opDevice` that is one of the three canonical device
strings, the call returns `false`, the device it resolves (and records as used)
is `OpDeviceType opDevice` whatever the configuration's device type is, the
string literal it appends has exactly the value `opDevice`, and `newInstName`
gains the suffix ",device". -/
theorem handleDevicePlacement_explicit (self : GraphGlobalConfiguration)
    (opType opDevice : String)
    (B : SILBuilder) (loc : SILLocation) (operands : List SILValue) (newInstName : String)
    (h : opType ≠ "tfc.scalarToTensor")
    (hd : opDevice = "/device:CPU:0" ∨ opDevice = "/device:GPU:0" ∨ opDevice = "TPU_SYSTEM") :
    ∃ r d inst, OpDeviceType opDevice = .ok d ∧
      self.chooseDevice opType opDevice = .ok d ∧
      self.handleDevicePlacement opType opDevice B loc operands newInstName = .ok r ∧
      r.returned = false ∧
      r.self.usedDeviceTypes = insert d self.usedDeviceTypes ∧
      r.operands = operands ++ [SILValue.stringLiteral inst] ∧
      inst.value = opDevice ∧
      r.newInstName = newInstName ++ ",device" := by
  have hk : ∃ d, OpDeviceType opDevice = .ok d := by
    rcases hd with rfl | rfl | rfl
    · exact ⟨DeviceType.CPU, by decide⟩
    · exact ⟨DeviceType.GPU, by decide⟩
    · exact ⟨DeviceType.TPU, by decide⟩
  obtain ⟨d, hk⟩ := hk
  refine ⟨_, d, ⟨loc, opDevice, Encoding.UTF8⟩, hk, ?_,
    handleDevicePlacement_of_explicit self opType opDevice d B loc operands newInstName h hk,
    rfl, rfl, rfl, rfl, rfl⟩
  simp [GraphGlobalConfiguration.chooseDevice, isEmpty_eq_false_of_OpDeviceType hk, hk]

/-- C2, at the op "Add" with explicit device "TPU_SYSTEM" under a configuration
targeting CPU. -/
theorem handleDevicePlacement_explicit_witness :
    ("Add" ≠ "tfc.scalarToTensor") ∧
    ∃ r d inst, OpDeviceType "TPU_SYSTEM" = .ok d ∧
      ({ deviceType := DeviceType.CPU } : GraphGlobalConfiguration).chooseDevice
        "Add" "TPU_SYSTEM" = .ok d ∧
      ({ deviceType := DeviceType.CPU } : GraphGlobalConfiguration).handleDevicePlacement
        "Add" "TPU_SYSTEM" ⟨[]⟩ ⟨7⟩ [SILValue.other 0] "Add" = .ok r ∧
      r.returned = false ∧
      r.self.usedDeviceTypes = insert d ∅ ∧
      r.operands = [SILValue.other 0] ++ [SILValue.stringLiteral inst] ∧
      inst.value = "TPU_SYSTEM" ∧
      r.newInstName = "Add" ++ ",device" :=
  ⟨by decide,
   handleDevicePlacement_explicit { deviceType := DeviceType.CPU } "Add" "TPU_SYSTEM" ⟨[]⟩ ⟨7⟩
     [SILValue.other 0] "Add" (by decide) (Or.inr (Or.inr rfl))⟩

/-- C3. Placement of the pseudo-op "tfc.scalarToTensor" with an empty `opDevice`
is a no-op: the call returns `false` and the operand list, `newInstName`, the
configuration (so `usedDeviceTypes`, `deviceType`, `isTPUInfeedEnabled`) and the
builder are exactly as they were. -/
theorem handleDevicePlacement_scalarToTensor_noop (self : GraphGlobalConfiguration)
    (B : SILBuilder) (loc : SILLocation) (operands : List SILValue) (newInstName : String) :
    ∃ r, self.handleDevicePlacement "tfc.scalarToTensor" "" B loc operands newInstName = .ok r ∧
      r.returned = false ∧
      r.operands = operands ∧
      r.newInstName = newInstName ∧
      r.self.usedDeviceTypes = self.usedDeviceTypes ∧
      r.self.deviceType = self.deviceType ∧
      r.self.isTPUInfeedEnabled = self.isTPUInfeedEnabled ∧
      r.B = B :=
  ⟨_, handleDevicePlacement_of_scalarToTensor self B loc operands newInstName,
    rfl, rfl, rfl, rfl, rfl, rfl, rfl⟩

/-- C4. The pseudo-op "tfc.scalarToTensor" with a non-empty `opDevice` is
rejected: the assertion `opDevice.empty()` fails, so the call does not return
(in particular it does not return `false`). -/
theorem handleDevicePlacement_scalarToTensor_rejects (self : GraphGlobalConfiguration)
    (opDevice : String) (B : SILBuilder) (loc : SILLocation) (operands : List SILValue)
    (newInstName : String) (hd : opDevice ≠ "") :
    self.handleDevicePlacement "tfc.scalarToTensor" opDevice B loc operands newInstName =
        .error (Abort.assertion "opDevice.empty()") ∧
      ∀ r, self.handleDevicePlacement "tfc.scalarToTensor" opDevice B loc operands newInstName
        ≠ .ok r := by
  have hf := handleDevicePlacement_of_scalarToTensor_device self opDevice B loc operands
    newInstName hd
  refine ⟨hf, fun r hr => ?_⟩
  rw [hf] at hr
  cases hr

/-- C4, at the pseudo-op carrying the explicit device "/device:GPU:0". -/
theorem handleDevicePlacement_scalarToTensor_rejects_witness :
    ("/device:GPU:0" ≠ "") ∧
    (({} : GraphGlobalConfiguration).handleDevicePlacement "tfc.scalarToTensor" "/device:GPU:0"
        ⟨[]⟩ ⟨7⟩ [SILValue.other 0] "tfc.scalarToTensor" =
        .error (Abort.assertion "opDevice.empty()") ∧
      ∀ r, ({} : GraphGlobalConfiguration).handleDevicePlacement "tfc.scalarToTensor"
        "/device:GPU:0" ⟨[]⟩ ⟨7⟩ [SILValue.other 0] "tfc.scalarToTensor" ≠ .ok r) :=
  ⟨by decide,
   handleDevicePlacement_scalarToTensor_rejects {} "/device:GPU:0" ⟨[]⟩ ⟨7⟩
     [SILValue.other 0] "tfc.scalarToTensor" (by decide)⟩

/-! Section: Claims about the device registry -/

/-- C5. Unknown device strings are errors, never a silent default:
`OpDeviceType s` yields a device kind if and only if `s` is exactly one of
"/device:CPU:0", "/device:GPU:0", "TPU_SYSTEM", and aborts for every other string
(for example "CPU:0" and "/device:cpu:0"); so a call of `handleDevicePlacement`
on an op other than "tfc.scalarToTensor" with a non-empty `opDevice` outside
these three strings aborts, whatever the configuration's device type is. -/
theorem OpDeviceType_unknown_is_error :
    (∀ s : String, (∃ d, OpDeviceType s = .ok d) ↔
      (s = "/device:CPU:0" ∨ s = "/device:GPU:0" ∨ s = "TPU_SYSTEM")) ∧
    (∀ s : String, ¬ (s = "/device:CPU:0" ∨ s = "/device:GPU:0" ∨ s = "TPU_SYSTEM") →
      OpDeviceType s = .error (Abort.unreachable "Unknown device type")) ∧
    OpDeviceType "CPU:0" = .error (Abort.unreachable "Unknown device type") ∧
    OpDeviceType "/device:cpu:0" = .error (Abort.unreachable "Unknown device type") ∧
    (∀ (self : GraphGlobalConfiguration) (opType opDevice : String) (B : SILBuilder)
        (loc : SILLocation) (operands : List SILValue) (newInstName : String),
      opType ≠ "tfc.scalarToTensor" → opDevice ≠ "" →
      ¬ (opDevice = "/device:CPU:0" ∨ opDevice = "/device:GPU:0" ∨ opDevice = "TPU_SYSTEM") →
      self.handleDevicePlacement opType opDevice B loc operands newInstName =
          .error (Abort.unreachable "Unknown device type") ∧
        ∀ r, self.handleDevicePlacement opType opDevice B loc operands newInstName ≠ .ok r) := by
  refine ⟨fun s => ⟨?_, ?_⟩, ?_, by decide, by decide, ?_⟩
  · rintro ⟨d, hd⟩
    have hs := (OpDeviceType_ok_iff s d).mp hd
    cases d
    · exact Or.inl hs
    · exact Or.inr (Or.inl hs)
    · exact Or.inr (Or.inr hs)
  · rintro (rfl | rfl | rfl)
    · exact ⟨DeviceType.CPU, by decide⟩
    · exact ⟨DeviceType.GPU, by decide⟩
    · exact ⟨DeviceType.TPU, by decide⟩
  · intro s hs
    exact OpDeviceType_error_of_not_canonical s (fun h => hs (Or.inl h))
      (fun h => hs (Or.inr (Or.inl h))) (fun h => hs (Or.inr (Or.inr h)))
  · intro self opType opDevice B loc operands newInstName h hd hs
    have hf := handleDevicePlacement_of_unknown self opType opDevice B loc operands newInstName
      h hd (fun h => hs (Or.inl h)) (fun h => hs (Or.inr (Or.inl h)))
      (fun h => hs (Or.inr (Or.inr h)))
    refine ⟨hf, fun r hr => ?_⟩
    rw [hf] at hr
    cases hr

/-- C5, at the op "Add" with the explicit device "CPU:0" under a configuration
targeting GPU: the call aborts instead of falling back to GPU. -/
theorem OpDeviceType_unknown_is_error_witness :
    ({ deviceType := DeviceType.GPU } : GraphGlobalConfiguration).handleDevicePlacement
        "Add" "CPU:0" ⟨[]⟩ ⟨7⟩ [SILValue.other 0] "Add" =
        .error (Abort.unreachable "Unknown device type") ∧
      ∀ r, ({ deviceType := DeviceType.GPU } : GraphGlobalConfiguration).handleDevicePlacement
        "Add" "CPU:0" ⟨[]⟩ ⟨7⟩ [SILValue.other 0] "Add" ≠ .ok r :=
  OpDeviceType_unknown_is_error.2.2.2.2 { deviceType := DeviceType.GPU } "Add" "CPU:0" ⟨[]⟩ ⟨7⟩
    [SILValue.other 0] "Add" (by decide) (by decide) (by decide)

/-- C6. The device registry is a bijection: `getDeviceString` and
`getDeviceShortName` are injective on the three device kinds,
`OpDeviceType (getDeviceString d) = d` for every kind `d`, and
`getDeviceString (OpDeviceType s) = s` for every string `s` on which
`OpDeviceType` succeeds. -/
theorem device_registry_bijective :
    Function.Injective getDeviceString ∧
    Function.Injective getDeviceShortName ∧
    (∀ d : DeviceType, OpDeviceType (getDeviceString d) = .ok d) ∧
    (∀ (s : String) (d : DeviceType), OpDeviceType s = .ok d → getDeviceString d = s) := by
  refine ⟨?_, ?_, OpDeviceType_getDeviceString, fun s d h => ((OpDeviceType_ok_iff s d).mp h).symm⟩
  · intro a b hab
    cases a <;> cases b <;> first | rfl | exact absurd hab (by decide)
  · intro a b hab
    cases a <;> cases b <;> first | rfl | exact absurd hab (by decide)

/-- C6, at the string "TPU_SYSTEM": `OpDeviceType` succeeds on it with TPU, and
`getDeviceString` gives the string back. -/
theorem device_registry_bijective_witness :
    OpDeviceType "TPU_SYSTEM" = .ok DeviceType.TPU ∧
    getDeviceString DeviceType.TPU = "TPU_SYSTEM" :=
  ⟨by decide, device_registry_bijective.2.2.2 "TPU_SYSTEM" DeviceType.TPU (by decide)⟩

/-! Section: Claims about the used-device set -/

/-- C7. The used-device set is exact: for every sequence of calls of
`handleDevicePlacement` on one configuration whose `usedDeviceTypes` starts
empty, if all calls return then there is one result per call and the final
`usedDeviceTypes` equals the set of device kinds resolved by those calls, that
is, the kinds named by the device strings the calls appended. -/
theorem usedDeviceTypes_exact (cfg : GraphGlobalConfiguration) (B : SILBuilder)
    (cs : List PlacementCall) (cfg1 : GraphGlobalConfiguration) (B1 : SILBuilder)
    (rs : List PlacementResult)
    (hempty : cfg.usedDeviceTypes = ∅)
    (hrun : runPlacements cfg B cs = .ok (cfg1, B1, rs)) :
    rs.length = cs.length ∧ cfg1.usedDeviceTypes = resolvedDeviceKinds cs rs := by
  obtain ⟨hlen, hused⟩ := runPlacements_usedDeviceTypes cs cfg B cfg1 B1 rs hrun
  refine ⟨hlen, ?_⟩
  rw [hused, hempty, Finset.empty_union]

/-- C7, at three calls under a configuration targeting CPU: "Add" with no
device, the pseudo-op, and "Mul" with the explicit device "/device:GPU:0". All
three return and the used-device set is exactly GPU and CPU. -/
theorem usedDeviceTypes_exact_witness :
    runPlacements {} ⟨[]⟩
      [⟨"Add", "", ⟨1⟩, [SILValue.other 0, SILValue.other 1], "Add"⟩,
       ⟨"tfc.scalarToTensor", "", ⟨2⟩, [SILValue.other 2], "tfc.scalarToTensor"⟩,
       ⟨"Mul", "/device:GPU:0", ⟨3⟩, [SILValue.other 3], "Mul"⟩] =
      .ok ({ usedDeviceTypes := {DeviceType.GPU, DeviceType.CPU} },
        ⟨[⟨⟨1⟩, "/device:CPU:0", Encoding.UTF8⟩, ⟨⟨3⟩, "/device:GPU:0", Encoding.UTF8⟩]⟩,
        [⟨true, { usedDeviceTypes := {DeviceType.CPU} },
            ⟨[⟨⟨1⟩, "/device:CPU:0", Encoding.UTF8⟩]⟩,
            [SILValue.other 0, SILValue.other 1,
              SILValue.stringLiteral ⟨⟨1⟩, "/device:CPU:0", Encoding.UTF8⟩], "Add,device"⟩,
         ⟨false, { usedDeviceTypes := {DeviceType.CPU} },
            ⟨[⟨⟨1⟩, "/device:CPU:0", Encoding.UTF8⟩]⟩,
            [SILValue.other 2], "tfc.scalarToTensor"⟩,
         ⟨false, { usedDeviceTypes := {DeviceType.GPU, DeviceType.CPU} },
            ⟨[⟨⟨1⟩, "/device:CPU:0", Encoding.UTF8⟩, ⟨⟨3⟩, "/device:GPU:0", Encoding.UTF8⟩]⟩,
            [SILValue.other 3,
              SILValue.stringLiteral ⟨⟨3⟩, "/device:GPU:0", Encoding.UTF8⟩], "Mul,device"⟩]) ∧
    ({DeviceType.GPU, DeviceType.CPU} : Finset DeviceType) =
      resolvedDeviceKinds
        [⟨"Add", "", ⟨1⟩, [SILValue.other 0, SILValue.other 1], "Add"⟩,
         ⟨"tfc.scalarToTensor", "", ⟨2⟩, [SILValue.other 2], "tfc.scalarToTensor"⟩,
         ⟨"Mul", "/device:GPU:0", ⟨3⟩, [SILValue.other 3], "Mul"⟩]
        [⟨true, { usedDeviceTypes := {DeviceType.CPU} },
            ⟨[⟨⟨1⟩, "/device:CPU:0", Encoding.UTF8⟩]⟩,
            [SILValue.other 0, SILValue.other 1,
              SILValue.stringLiteral ⟨⟨1⟩, "/device:CPU:0", Encoding.UTF8⟩], "Add,device"⟩,
         ⟨false, { usedDeviceTypes := {DeviceType.CPU} },
            ⟨[⟨⟨1⟩, "/device:CPU:0", Encoding.UTF8⟩]⟩,
            [SILValue.other 2], "tfc.scalarToTensor"⟩,
         ⟨false, { usedDeviceTypes := {DeviceType.GPU, DeviceType.CPU} },
            ⟨[⟨⟨1⟩, "/device:CPU:0", Encoding.UTF8⟩, ⟨⟨3⟩, "/device:GPU:0", Encoding.UTF8⟩]⟩,
            [SILValue.other 3,
              SILValue.stringLiteral ⟨⟨3⟩, "/device:GPU:0", Encoding.UTF8⟩], "Mul,device"⟩] :=
  have hrun : runPlacements {} ⟨[]⟩
      [⟨"Add", "", ⟨1⟩, [SILValue.other 0, SILValue.other 1], "Add"⟩,
       ⟨"tfc.scalarToTensor", "", ⟨2⟩, [SILValue.other 2], "tfc.scalarToTensor"⟩,
       ⟨"Mul", "/device:GPU:0", ⟨3⟩, [SILValue.other 3], "Mul"⟩] = .ok _ := by decide
  ⟨hrun, (usedDeviceTypes_exact _ _ _ _ _ _ rfl hrun).2⟩

/-- C8. Placement is idempotent on explicit devices: for an op type other than
"tfc.scalarToTensor" and a valid explicit device string `s` naming the kind `d`,
the call returns with the used-device set equal to the set before the call
unioned with `d`; and placing again, with the explicit device set to the device
string the first call emitted, resolves the same kind `d`, emits the same string,
and leaves the used-device set unchanged. -/
theorem handleDevicePlacement_idempotent (self : GraphGlobalConfiguration)
    (opType s : String) (d : DeviceType)
    (B : SILBuilder) (loc : SILLocation) (operands : List SILValue) (newInstName : String)
    (h : opType ≠ "tfc.scalarToTensor") (hs : OpDeviceType s = .ok d) :
    ∃ r1 inst1, self.handleDevicePlacement opType s B loc operands newInstName = .ok r1 ∧
      r1.self.usedDeviceTypes = self.usedDeviceTypes ∪ {d} ∧
      r1.operands = operands ++ [SILValue.stringLiteral inst1] ∧
      ∃ r2 inst2,
        r1.self.handleDevicePlacement opType inst1.value r1.B loc r1.operands r1.newInstName
          = .ok r2 ∧
        r1.self.chooseDevice opType inst1.value = .ok d ∧
        r2.operands = r1.operands ++ [SILValue.stringLiteral inst2] ∧
        inst2.value = inst1.value ∧
        r2.self.usedDeviceTypes = r1.self.usedDeviceTypes := by
  refine ⟨_, ⟨loc, s, Encoding.UTF8⟩,
    handleDevicePlacement_of_explicit self opType s d B loc operands newInstName h hs,
    ?_, rfl, _, ⟨loc, s, Encoding.UTF8⟩,
    handleDevicePlacement_of_explicit _ opType s d _ loc _ _ h hs, ?_, rfl, rfl, ?_⟩
  · ext x
    simp [Finset.mem_insert, or_comm]
  · simp [GraphGlobalConfiguration.chooseDevice, isEmpty_eq_false_of_OpDeviceType hs, hs]
  · simp

/-- C8, at the op "Add" with the explicit device "/device:GPU:0" under a
configuration targeting CPU that has already used TPU. -/
theorem handleDevicePlacement_idempotent_witness :
    ("Add" ≠ "tfc.scalarToTensor") ∧ OpDeviceType "/device:GPU:0" = .ok DeviceType.GPU ∧
    ∃ r1 inst1, ({ usedDeviceTypes := {DeviceType.TPU} } :
          GraphGlobalConfiguration).handleDevicePlacement
          "Add" "/device:GPU:0" ⟨[]⟩ ⟨7⟩ [SILValue.other 0] "Add" = .ok r1 ∧
      r1.self.usedDeviceTypes = {DeviceType.TPU} ∪ {DeviceType.GPU} ∧
      r1.operands = [SILValue.other 0] ++ [SILValue.stringLiteral inst1] ∧
      ∃ r2 inst2,
        r1.self.handleDevicePlacement "Add" inst1.value r1.B ⟨7⟩ r1.operands r1.newInstName
          = .ok r2 ∧
        r1.self.chooseDevice "Add" inst1.value = .ok DeviceType.GPU ∧
        r2.operands = r1.operands ++ [SILValue.stringLiteral inst2] ∧
        inst2.value = inst1.value ∧
        r2.self.usedDeviceTypes = r1.self.usedDeviceTypes :=
  ⟨by decide, by decide,
   handleDevicePlacement_idempotent { usedDeviceTypes := {DeviceType.TPU} } "Add"
     "/device:GPU:0" DeviceType.GPU ⟨[]⟩ ⟨7⟩ [SILValue.other 0] "Add" (by decide) (by decide)⟩

/-- C9. The used-device set never shrinks: for every call of
`handleDevicePlacement` that returns, with any op type, any explicit device and
any starting state, `usedDeviceTypes` before the call is a subset of
`usedDeviceTypes` after it, and the set after the call contains at most one
device kind that the set before it did not. -/
theorem usedDeviceTypes_monotone (self : GraphGlobalConfiguration)
    (opType opDevice : String) (B : SILBuilder) (loc : SILLocation)
    (operands : List SILValue) (newInstName : String) (r : PlacementResult)
    (hr : self.handleDevicePlacement opType opDevice B loc operands newInstName = .ok r) :
    self.usedDeviceTypes ⊆ r.self.usedDeviceTypes ∧
      (r.self.usedDeviceTypes \ self.usedDeviceTypes).card ≤ 1 := by
  rcases handleDevicePlacement_ok_cases hr with ⟨_, _, rfl⟩ | ⟨_, d, _, rfl⟩
  · simp
  · refine ⟨Finset.subset_insert _ _, ?_⟩
    have hsub : insert d self.usedDeviceTypes \ self.usedDeviceTypes ⊆ {d} := by
      intro x hx
      simp only [Finset.mem_sdiff, Finset.mem_insert] at hx
      rcases hx with ⟨rfl | hx, hn⟩
      · exact Finset.mem_singleton_self _
      · exact absurd hx hn
    exact (Finset.card_le_card hsub).trans (by simp)

/-- C9, at the op "Add" with no explicit device under a configuration targeting
GPU that has already used CPU: the call returns and the set grows by GPU. -/
theorem usedDeviceTypes_monotone_witness :
    ({ deviceType := DeviceType.GPU, usedDeviceTypes := {DeviceType.CPU} } :
        GraphGlobalConfiguration).handleDevicePlacement "Add" "" ⟨[]⟩ ⟨7⟩ [SILValue.other 0] "Add"
      = .ok ⟨true, { deviceType := DeviceType.GPU,
                     usedDeviceTypes := {DeviceType.GPU, DeviceType.CPU} },
             ⟨[⟨⟨7⟩, "/device:GPU:0", Encoding.UTF8⟩]⟩,
             [SILValue.other 0, SILValue.stringLiteral ⟨⟨7⟩, "/device:GPU:0", Encoding.UTF8⟩],
             "Add,device"⟩ ∧
    ({DeviceType.CPU} : Finset DeviceType) ⊆ {DeviceType.GPU, DeviceType.CPU} ∧
    (({DeviceType.GPU, DeviceType.CPU} : Finset DeviceType) \ {DeviceType.CPU}).card ≤ 1 :=
  have hr : ({ deviceType := DeviceType.GPU, usedDeviceTypes := {DeviceType.CPU} } :
        GraphGlobalConfiguration).handleDevicePlacement "Add" "" ⟨[]⟩ ⟨7⟩ [SILValue.other 0] "Add"
      = .ok _ := by decide
  ⟨hr, usedDeviceTypes_monotone _ _ _ _ _ _ _ _ hr⟩

/-! Section: Claims about the returned flag -/

/-- C10 fails as stated. The pseudo-op "tfc.scalarToTensor" with an empty
`opDevice` returns `false`, not `true`, and chooses no device; and the op "Add"
with the non-empty, unknown `opDevice` "CPU:0" does not return `false`, it
aborts. -/
theorem handleDevicePlacement_returned_counterexample :
    (("" : String).isEmpty = true ∧
      ({} : GraphGlobalConfiguration).handleDevicePlacement "tfc.scalarToTensor" ""
          ⟨[]⟩ ⟨7⟩ [SILValue.other 0] "tfc.scalarToTensor" =
        .ok ⟨false, {}, ⟨[]⟩, [SILValue.other 0], "tfc.scalarToTensor"⟩ ∧
      ¬ ∃ r, ({} : GraphGlobalConfiguration).handleDevicePlacement "tfc.scalarToTensor" ""
          ⟨[]⟩ ⟨7⟩ [SILValue.other 0] "tfc.scalarToTensor" = .ok r ∧ r.returned = true) ∧
    (("CPU:0" : String).isEmpty = false ∧
      ¬ ∃ r, ({} : GraphGlobalConfiguration).handleDevicePlacement "Add" "CPU:0"
          ⟨[]⟩ ⟨7⟩ [SILValue.other 0] "Add" = .ok r ∧ r.returned = false) := by
  have h1 : ({} : GraphGlobalConfiguration).handleDevicePlacement "tfc.scalarToTensor" ""
      ⟨[]⟩ ⟨7⟩ [SILValue.other 0] "tfc.scalarToTensor" =
      .ok ⟨false, {}, ⟨[]⟩, [SILValue.other 0], "tfc.scalarToTensor"⟩ := by decide
  have h2 : ({} : GraphGlobalConfiguration).handleDevicePlacement "Add" "CPU:0"
      ⟨[]⟩ ⟨7⟩ [SILValue.other 0] "Add" = .error (Abort.unreachable "Unknown device type") := by
    decide
  refine ⟨⟨by decide, h1, ?_⟩, by decide, ?_⟩
  · rintro ⟨r, hr, ht⟩
    rw [h1] at hr
    cases hr
    cases ht
  · rintro ⟨r, hr, _⟩
    rw [h2] at hr
    cases hr

/-- C10, amended. For an op type other than "tfc.scalarToTensor", the call
returns `true` when `opDevice` is empty, having chosen the configuration's
device, and returns `false` when `opDevice` is one of the three canonical device
strings. For "tfc.scalarToTensor" with an empty `opDevice` it returns `false`
and changes nothing. Whenever a call returns, for any op type, it returns `true`
exactly when `opDevice` is empty and the op is not the pseudo-op; so a returning
call with a non-empty `opDevice` returns `false`. -/
theorem handleDevicePlacement_returned (self : GraphGlobalConfiguration)
    (B : SILBuilder) (loc : SILLocation) (operands : List SILValue) (newInstName : String) :
    (∀ opType : String, opType ≠ "tfc.scalarToTensor" →
      (∃ r, self.handleDevicePlacement opType "" B loc operands newInstName = .ok r ∧
        r.returned = true ∧ self.chooseDevice opType "" = .ok self.deviceType ∧
        self.deviceType ∈ r.self.usedDeviceTypes) ∧
      (∀ opDevice : String,
        opDevice = "/device:CPU:0" ∨ opDevice = "/device:GPU:0" ∨ opDevice = "TPU_SYSTEM" →
        ∃ r, self.handleDevicePlacement opType opDevice B loc operands newInstName = .ok r ∧
          r.returned = false)) ∧
    (∃ r, self.handleDevicePlacement "tfc.scalarToTensor" "" B loc operands newInstName = .ok r ∧
      r.returned = false ∧ r.self = self ∧ r.B = B ∧ r.operands = operands ∧
      r.newInstName = newInstName) ∧
    (∀ (opType opDevice : String) (r : PlacementResult),
      self.handleDevicePlacement opType opDevice B loc operands newInstName = .ok r →
      ((r.returned = true ↔ opDevice = "" ∧ opType ≠ "tfc.scalarToTensor") ∧
       (opDevice ≠ "" → r.returned = false))) := by
  refine ⟨fun opType h => ⟨?_, ?_⟩, ?_, ?_⟩
  · refine ⟨_, handleDevicePlacement_of_empty self opType B loc operands newInstName h,
      rfl, ?_, Finset.mem_insert_self _ _⟩
    have he : ("" : String).isEmpty = true := by decide
    simp [GraphGlobalConfiguration.chooseDevice, he]
  · intro opDevice hd
    have hk : ∃ d, OpDeviceType opDevice = .ok d := by
      rcases hd with rfl | rfl | rfl
      · exact ⟨DeviceType.CPU, by decide⟩
      · exact ⟨DeviceType.GPU, by decide⟩
      · exact ⟨DeviceType.TPU, by decide⟩
    obtain ⟨d, hk⟩ := hk
    exact ⟨_, handleDevicePlacement_of_explicit self opType opDevice d B loc operands
      newInstName h hk, rfl⟩
  · exact ⟨_, handleDevicePlacement_of_scalarToTensor self B loc operands newInstName,
      rfl, rfl, rfl, rfl, rfl⟩
  · intro opType opDevice r hr
    rcases handleDevicePlacement_ok_cases hr with ⟨ht, _, rfl⟩ | ⟨ht, d, _, rfl⟩
    · simp [ht]
    · refine ⟨?_, fun hne => isEmpty_eq_false_of_ne hne⟩
      simp [String.isEmpty_iff, ht]

/-- C10 amended, at a configuration targeting GPU: "Add" with the explicit device
"/device:CPU:0" returns `false`, and since that call returns with a non-empty
`opDevice`, the general part gives `false` as well. -/
theorem handleDevicePlacement_returned_witness :
    (∃ r, ({ deviceType := DeviceType.GPU } : GraphGlobalConfiguration).handleDevicePlacement
        "Add" "/device:CPU:0" ⟨[]⟩ ⟨7⟩ [SILValue.other 0] "Add" = .ok r ∧ r.returned = false) ∧
    (∃ r, ({ deviceType := DeviceType.GPU } : GraphGlobalConfiguration).handleDevicePlacement
        "Add" "" ⟨[]⟩ ⟨7⟩ [SILValue.other 0] "Add" = .ok r ∧ r.returned = true ∧
        ({ deviceType := DeviceType.GPU } : GraphGlobalConfiguration).chooseDevice "Add" ""
          = .ok DeviceType.GPU ∧
        DeviceType.GPU ∈ r.self.usedDeviceTypes) :=
  ⟨((handleDevicePlacement_returned { deviceType := DeviceType.GPU } ⟨[]⟩ ⟨7⟩
      [SILValue.other 0] "Add").1 "Add" (by decide)).2 "/device:CPU:0" (Or.inl rfl),
   ((handleDevicePlacement_returned { deviceType := DeviceType.GPU } ⟨[]⟩ ⟨7⟩
      [SILValue.other 0] "Add").1 "Add" (by decide)).1⟩

/-! Section: Claims about what a placement leaves alone -/

/-- C11. Placement only appends: for every call of `handleDevicePlacement` that
returns, the configuration's `deviceType` and `isTPUInfeedEnabled` are unchanged,
the old operand list is a prefix of the new one and the new list is at most one
operand longer, the new `newInstName` is the old one followed by either nothing
or exactly ",device", and a device operand is appended if and only if the
",device" suffix is appended. -/
theorem handleDevicePlacement_only_appends (self : GraphGlobalConfiguration)
    (opType opDevice : String) (B : SILBuilder) (loc : SILLocation)
    (operands : List SILValue) (newInstName : String) (r : PlacementResult)
    (hr : self.handleDevicePlacement opType opDevice B loc operands newInstName = .ok r) :
    r.self.deviceType = self.deviceType ∧
    r.self.isTPUInfeedEnabled = self.isTPUInfeedEnabled ∧
    operands <+: r.operands ∧
    r.operands.length ≤ operands.length + 1 ∧
    (r.newInstName = newInstName ∨ r.newInstName = newInstName ++ ",device") ∧
    ((r.operands = operands ∧ r.newInstName = newInstName) ∨
      (∃ inst, r.operands = operands ++ [SILValue.stringLiteral inst] ∧
        r.newInstName = newInstName ++ ",device")) ∧
    (r.operands ≠ operands ↔ r.newInstName ≠ newInstName) := by
  have hname : newInstName ++ ",device" ≠ newInstName := by
    intro h
    have hl := congrArg String.length h
    rw [String.length_append] at hl
    have h7 : (",device" : String).length = 7 := by decide
    omega
  have hops : ∀ v : SILValue, operands ++ [v] ≠ operands := by
    intro v h
    have hl := congrArg List.length h
    simp at hl
  rcases handleDevicePlacement_ok_cases hr with ⟨_, _, rfl⟩ | ⟨_, d, _, rfl⟩
  · refine ⟨rfl, rfl, List.prefix_refl _, Nat.le_succ _, Or.inl rfl, Or.inl ⟨rfl, rfl⟩, ?_⟩
    simp
  · refine ⟨rfl, rfl, List.prefix_append _ _, ?_, Or.inr rfl, Or.inr ⟨_, rfl, rfl⟩, ?_⟩
    · simp
    · constructor
      · intro _
        exact hname
      · intro _
        exact hops _

/-- C11, at the op "Add" with no explicit device under a configuration targeting
TPU with infeed enabled: the call returns, one operand and ",device" are
appended, and the target and the infeed flag are as before. -/
theorem handleDevicePlacement_only_appends_witness :
    ({ deviceType := DeviceType.TPU, isTPUInfeedEnabled := true } :
        GraphGlobalConfiguration).handleDevicePlacement "Add" "" ⟨[]⟩ ⟨7⟩ [SILValue.other 0] "Add"
      = .ok ⟨true, { deviceType := DeviceType.TPU, isTPUInfeedEnabled := true,
                     usedDeviceTypes := {DeviceType.TPU} },
             ⟨[⟨⟨7⟩, "TPU_SYSTEM", Encoding.UTF8⟩]⟩,
             [SILValue.other 0, SILValue.stringLiteral ⟨⟨7⟩, "TPU_SYSTEM", Encoding.UTF8⟩],
             "Add,device"⟩ ∧
    [SILValue.other 0] <+:
      [SILValue.other 0, SILValue.stringLiteral ⟨⟨7⟩, "TPU_SYSTEM", Encoding.UTF8⟩] ∧
    ([SILValue.other 0, SILValue.stringLiteral ⟨⟨7⟩, "TPU_SYSTEM", Encoding.UTF8⟩] ≠
        [SILValue.other 0] ↔ "Add,device" ≠ "Add") :=
  have hr : ({ deviceType := DeviceType.TPU, isTPUInfeedEnabled := true } :
        GraphGlobalConfiguration).handleDevicePlacement "Add" "" ⟨[]⟩ ⟨7⟩ [SILValue.other 0] "Add"
      = .ok _ := by decide
  have h := handleDevicePlacement_only_appends _ _ _ _ _ _ _ _ hr
  ⟨hr, h.2.2.1, h.2.2.2.2.2.2⟩

/-- The statement-by-statement form agrees with `handleDevicePlacement`: same
outcome, and on a return the same final state. -/
theorem handleDevicePlacementSteps_agrees (self : GraphGlobalConfiguration)
    (opType opDevice : String) (B : SILBuilder) (loc : SILLocation)
    (operands : List SILValue) (newInstName : String) :
    (handleDevicePlacementSteps ⟨self, B, operands, newInstName⟩ opType opDevice loc).2 =
        (self.handleDevicePlacement opType opDevice B loc operands newInstName).map
          PlacementResult.returned ∧
    ∀ r, self.handleDevicePlacement opType opDevice B loc operands newInstName = .ok r →
      (handleDevicePlacementSteps ⟨self, B, operands, newInstName⟩ opType opDevice loc).1 =
        ⟨r.self, r.B, r.operands, r.newInstName⟩ := by
  unfold handleDevicePlacementSteps GraphGlobalConfiguration.handleDevicePlacement
  by_cases ht : opType = "tfc.scalarToTensor"
  · by_cases he : opDevice.isEmpty = true
    · simp only [ht, he, if_true]
      refine ⟨rfl, fun r hr => ?_⟩
      cases hr
      rfl
    · simp only [ht, he, if_true]
      refine ⟨rfl, fun r hr => ?_⟩
      cases hr
  · simp only [ht, if_false]
    cases hc : self.chooseDevice opType opDevice with
    | error e =>
      refine ⟨rfl, fun r hr => ?_⟩
      cases hr
    | ok d =>
      refine ⟨rfl, fun r hr => ?_⟩
      cases hr
      rfl

/-- A call aborts exactly on an unknown non-empty device for a real op, or on
any non-empty device for the pseudo-op. -/
theorem handleDevicePlacement_error_iff (self : GraphGlobalConfiguration)
    (opType opDevice : String) (B : SILBuilder) (loc : SILLocation)
    (operands : List SILValue) (newInstName : String) :
    (∃ e, self.handleDevicePlacement opType opDevice B loc operands newInstName = .error e) ↔
      ((opType ≠ "tfc.scalarToTensor" ∧ opDevice ≠ "" ∧
          ¬ (opDevice = "/device:CPU:0" ∨ opDevice = "/device:GPU:0" ∨
              opDevice = "TPU_SYSTEM")) ∨
        (opType = "tfc.scalarToTensor" ∧ opDevice ≠ "")) := by
  constructor
  · rintro ⟨e, he⟩
    by_cases ht : opType = "tfc.scalarToTensor"
    · right
      refine ⟨ht, ?_⟩
      rintro rfl
      rw [ht, handleDevicePlacement_of_scalarToTensor] at he
      cases he
    · left
      refine ⟨ht, ?_, ?_⟩
      · rintro rfl
        rw [handleDevicePlacement_of_empty _ _ _ _ _ _ ht] at he
        cases he
      · intro hcanon
        have hk : ∃ d, OpDeviceType opDevice = .ok d := by
          rcases hcanon with rfl | rfl | rfl
          · exact ⟨DeviceType.CPU, by decide⟩
          · exact ⟨DeviceType.GPU, by decide⟩
          · exact ⟨DeviceType.TPU, by decide⟩
        obtain ⟨d, hk⟩ := hk
        rw [handleDevicePlacement_of_explicit _ _ _ d _ _ _ _ ht hk] at he
        cases he
  · rintro (⟨ht, hd, hs⟩ | ⟨rfl, hd⟩)
    · exact ⟨_, handleDevicePlacement_of_unknown self opType opDevice B loc operands
        newInstName ht hd (fun h => hs (Or.inl h)) (fun h => hs (Or.inr (Or.inl h)))
        (fun h => hs (Or.inr (Or.inr h)))⟩
    · exact ⟨_, handleDevicePlacement_of_scalarToTensor_device self opDevice B loc operands
        newInstName hd⟩

/-- C16. Failed placement changes nothing: a call of `handleDevicePlacement`
fails exactly on a non-empty `opDevice` that is not a canonical device string
(for an op other than the pseudo-op) or on the pseudo-op "tfc.scalarToTensor"
with a non-empty `opDevice`; and whenever it fails, the state the call has
reached at the failure (configuration with its `usedDeviceTypes`, builder,
operand list and `newInstName`) is exactly the state before the call. -/
theorem handleDevicePlacement_failure_changes_nothing (self : GraphGlobalConfiguration)
    (opType opDevice : String) (B : SILBuilder) (loc : SILLocation)
    (operands : List SILValue) (newInstName : String) :
    ((∃ e, self.handleDevicePlacement opType opDevice B loc operands newInstName = .error e) ↔
      ((opType ≠ "tfc.scalarToTensor" ∧ opDevice ≠ "" ∧
          ¬ (opDevice = "/device:CPU:0" ∨ opDevice = "/device:GPU:0" ∨
              opDevice = "TPU_SYSTEM")) ∨
        (opType = "tfc.scalarToTensor" ∧ opDevice ≠ ""))) ∧
    (∀ e, self.handleDevicePlacement opType opDevice B loc operands newInstName = .error e →
      handleDevicePlacementSteps ⟨self, B, operands, newInstName⟩ opType opDevice loc =
        (⟨self, B, operands, newInstName⟩, .error e)) := by
  refine ⟨handleDevicePlacement_error_iff self opType opDevice B loc operands newInstName, ?_⟩
  intro e he
  unfold GraphGlobalConfiguration.handleDevicePlacement at he
  unfold handleDevicePlacementSteps
  by_cases ht : opType = "tfc.scalarToTensor"
  · by_cases hd : opDevice.isEmpty = true
    · simp only [ht, hd, if_true] at he
      cases he
    · simp only [ht, hd, if_true] at he ⊢
      cases he
      rfl
  · simp only [ht, if_false] at he ⊢
    cases hc : self.chooseDevice opType opDevice with
    | error e1 =>
      rw [hc] at he
      cases he
      rfl
    | ok d =>
      rw [hc] at he
      cases he

/-- C16, at the two kinds of failure under a configuration that has already
used GPU: "Add" with the unknown device "CPU:0", and the pseudo-op with the
device "/device:GPU:0". Both stop in the state they started in. -/
theorem handleDevicePlacement_failure_changes_nothing_witness :
    handleDevicePlacementSteps
        ⟨{ usedDeviceTypes := {DeviceType.GPU} }, ⟨[]⟩, [SILValue.other 0], "Add"⟩
        "Add" "CPU:0" ⟨7⟩ =
      (⟨{ usedDeviceTypes := {DeviceType.GPU} }, ⟨[]⟩, [SILValue.other 0], "Add"⟩,
        .error (Abort.unreachable "Unknown device type")) ∧
    handleDevicePlacementSteps
        ⟨{ usedDeviceTypes := {DeviceType.GPU} }, ⟨[]⟩, [SILValue.other 0], "tfc.scalarToTensor"⟩
        "tfc.scalarToTensor" "/device:GPU:0" ⟨7⟩ =
      (⟨{ usedDeviceTypes := {DeviceType.GPU} }, ⟨[]⟩, [SILValue.other 0],
          "tfc.scalarToTensor"⟩,
        .error (Abort.assertion "opDevice.empty()")) :=
  ⟨(handleDevicePlacement_failure_changes_nothing { usedDeviceTypes := {DeviceType.GPU} }
      "Add" "CPU:0" ⟨[]⟩ ⟨7⟩ [SILValue.other 0] "Add").2 _ (by decide),
   (handleDevicePlacement_failure_changes_nothing { usedDeviceTypes := {DeviceType.GPU} }
      "tfc.scalarToTensor" "/device:GPU:0" ⟨[]⟩ ⟨7⟩ [SILValue.other 0]
      "tfc.scalarToTensor").2 _ (by decide)⟩

/-! Section: Claims about element types and operand classes -/

/-- C12. `isValidTensorFlowElementType` is exactly the "has a dtype mapping"
predicate: whatever the dtype mapping `convertSwiftTypeToTF` is, a type is
reported valid if and only if its code is nonzero; a type with code 0 is
reported invalid and a type with any nonzero code is reported valid. -/
theorem isValidTensorFlowElementType_iff {SwiftType : Type}
    (convertSwiftTypeToTF : SwiftType → Nat) (ty : SwiftType) :
    (isValidTensorFlowElementType convertSwiftTypeToTF ty = true ↔
      convertSwiftTypeToTF ty ≠ 0) ∧
    (isValidTensorFlowElementType convertSwiftTypeToTF ty = false ↔
      convertSwiftTypeToTF ty = 0) := by
  unfold isValidTensorFlowElementType
  constructor
  · simp
  · simp

/-- C15. `SILTensorOpInfo::isInput` separates inputs from attributes: for an
operand number smaller than the length of `operandClasses` the lookup is in
bounds, and `isInput` is `true` if and only if the class recorded at that
position is `Input` or `InputElt`; it is `false` for each of the seven attribute
classes. -/
theorem isInput_iff_input_class (self : SILTensorOpInfo) (n : Nat)
    (hn : n < self.operandClasses.length) :
    ∃ b, self.isInput n = .ok b ∧
      (b = true ↔ ((self.operandClasses.get ⟨n, hn⟩).2 = OperandClass.Input ∨
        (self.operandClasses.get ⟨n, hn⟩).2 = OperandClass.InputElt)) ∧
      ((self.operandClasses.get ⟨n, hn⟩).2 ∈
          [OperandClass.Normal, OperandClass.DType, OperandClass.Tensor, OperandClass.Shape,
           OperandClass.Array, OperandClass.ArrayElement, OperandClass.ShapeArray] →
        b = false) := by
  have hget : self.operandClasses[n]? = some (self.operandClasses.get ⟨n, hn⟩) := by
    simp [List.getElem?_eq_getElem hn]
  have hin : self.isInput n =
      .ok ((self.operandClasses.get ⟨n, hn⟩).2 == OperandClass.Input ||
        (self.operandClasses.get ⟨n, hn⟩).2 == OperandClass.InputElt) := by
    simp only [SILTensorOpInfo.isInput, hget]
  refine ⟨_, hin, ?_, ?_⟩
  · cases (self.operandClasses.get ⟨n, hn⟩).2 <;> simp
  · cases (self.operandClasses.get ⟨n, hn⟩).2 <;> simp

/-- C15, at a descriptor of "Const" with one tensor input and the attributes
dtype and value: operand 0 is an input, operands 1 and 2 are not. -/
theorem isInput_iff_input_class_witness :
    (∃ b, SILTensorOpInfo.isInput
        ⟨⟨"Const,dtype,tensor", [SILValue.other 0, SILValue.other 1, SILValue.other 2], ⟨7⟩, ""⟩,
          "Const,dtype,tensor", "Const",
          [("", OperandClass.Input), ("dtype", OperandClass.DType),
           ("tensor", OperandClass.Tensor)]⟩ 1 = .ok b ∧
      (b = true ↔ (OperandClass.DType = OperandClass.Input ∨
        OperandClass.DType = OperandClass.InputElt)) ∧
      (OperandClass.DType ∈
          [OperandClass.Normal, OperandClass.DType, OperandClass.Tensor, OperandClass.Shape,
           OperandClass.Array, OperandClass.ArrayElement, OperandClass.ShapeArray] →
        b = false)) ∧
    SILTensorOpInfo.isInput
        ⟨⟨"Const,dtype,tensor", [SILValue.other 0, SILValue.other 1, SILValue.other 2], ⟨7⟩, ""⟩,
          "Const,dtype,tensor", "Const",
          [("", OperandClass.Input), ("dtype", OperandClass.DType),
           ("tensor", OperandClass.Tensor)]⟩ 0 = .ok true ∧
    SILTensorOpInfo.isInput
        ⟨⟨"Const,dtype,tensor", [SILValue.other 0, SILValue.other 1, SILValue.other 2], ⟨7⟩, ""⟩,
          "Const,dtype,tensor", "Const",
          [("", OperandClass.Input), ("dtype", OperandClass.DType),
           ("tensor", OperandClass.Tensor)]⟩ 2 = .ok false :=
  ⟨isInput_iff_input_class
      ⟨⟨"Const,dtype,tensor", [SILValue.other 0, SILValue.other 1, SILValue.other 2], ⟨7⟩, ""⟩,
        "Const,dtype,tensor", "Const",
        [("", OperandClass.Input), ("dtype", OperandClass.DType),
         ("tensor", OperandClass.Tensor)]⟩ 1 (by decide),
   by decide, by decide⟩

/-! Section: Claims about graphs with no explicit devices -/

theorem getDeviceString_eq_TPU_iff (d : DeviceType) :
    getDeviceString d = "TPU_SYSTEM" ↔ d = DeviceType.TPU := by
  cases d <;> decide

/-- A sequence of calls that all have an empty `opDevice` never aborts; it keeps
the target device, adds at most the target device to the used set, and every
device string it appends is the one of the target device. -/
theorem runPlacements_of_empty_devices (cs : List PlacementCall) :
    ∀ (cfg : GraphGlobalConfiguration) (B : SILBuilder),
      (∀ c ∈ cs, c.opDevice = "") →
      ∃ cfg1 B1 rs, runPlacements cfg B cs = .ok (cfg1, B1, rs) ∧
        rs.length = cs.length ∧
        cfg1.deviceType = cfg.deviceType ∧
        ((∀ c ∈ cs, c.opType = "tfc.scalarToTensor") →
          cfg1.usedDeviceTypes = cfg.usedDeviceTypes) ∧
        ((∃ c ∈ cs, c.opType ≠ "tfc.scalarToTensor") →
          cfg1.usedDeviceTypes = insert cfg.deviceType cfg.usedDeviceTypes) ∧
        ∀ p ∈ cs.zip rs, ∀ s ∈ appendedDeviceStrings p.1 p.2,
          s = getDeviceString cfg.deviceType := by
  induction cs with
  | nil =>
    intro cfg B _
    refine ⟨cfg, B, [], rfl, rfl, rfl, fun _ => rfl, ?_, ?_⟩
    · rintro ⟨c, hc, _⟩
      cases hc
    · intro p hp
      cases hp
  | cons c cs ih =>
    intro cfg B hdev
    have hc : c.opDevice = "" := hdev c (List.mem_cons_self _ _)
    have hrest : ∀ c1 ∈ cs, c1.opDevice = "" := fun c1 h1 => hdev c1 (List.mem_cons_of_mem _ h1)
    by_cases ht : c.opType = "tfc.scalarToTensor"
    · have hstep : cfg.handleDevicePlacement c.opType c.opDevice B c.loc c.operands
          c.newInstName = .ok ⟨false, cfg, B, c.operands, c.newInstName⟩ := by
        rw [hc, ht]
        exact handleDevicePlacement_of_scalarToTensor cfg B c.loc c.operands c.newInstName
      obtain ⟨cfg1, B1, rs, hrun, hlen, hdt, hall, hany, hstr⟩ := ih cfg B hrest
      refine ⟨cfg1, B1, (⟨false, cfg, B, c.operands, c.newInstName⟩ : PlacementResult) :: rs,
        ?_, by simp [hlen], hdt, ?_, ?_, ?_⟩
      · simp only [runPlacements, hstep, hrun]
      · intro h
        exact hall fun c1 h1 => h c1 (List.mem_cons_of_mem _ h1)
      · rintro ⟨c1, h1, hne⟩
        rcases List.mem_cons.mp h1 with rfl | h1
        · exact absurd ht hne
        · exact hany ⟨c1, h1, hne⟩
      · intro p hp s hs
        rcases List.mem_cons.mp (by simpa [List.zip_cons_cons] using hp) with rfl | hp
        · simp [appendedDeviceStrings] at hs
        · exact hstr p hp s hs
    · have hstep := handleDevicePlacement_of_empty cfg c.opType B c.loc c.operands
        c.newInstName ht
      rw [← hc] at hstep
      obtain ⟨cfg1, B1, rs, hrun, hlen, hdt, hall, hany, hstr⟩ :=
        ih { cfg with usedDeviceTypes := insert cfg.deviceType cfg.usedDeviceTypes }
          ⟨B.created ++ [⟨c.loc, getDeviceString cfg.deviceType, Encoding.UTF8⟩]⟩ hrest
      refine ⟨cfg1, B1,
        (⟨true, { cfg with usedDeviceTypes := insert cfg.deviceType cfg.usedDeviceTypes },
          ⟨B.created ++ [⟨c.loc, getDeviceString cfg.deviceType, Encoding.UTF8⟩]⟩,
          c.operands ++ [SILValue.stringLiteral
            ⟨c.loc, getDeviceString cfg.deviceType, Encoding.UTF8⟩],
          c.newInstName ++ ",device"⟩ : PlacementResult) :: rs,
        ?_, by simp [hlen], hdt, ?_, ?_, ?_⟩
      · simp only [runPlacements, hstep, hrun]
      · intro h
        exact absurd (h c (List.mem_cons_self _ _)) ht
      · intro _
        by_cases hsc : ∀ c1 ∈ cs, c1.opType = "tfc.scalarToTensor"
        · exact hall hsc
        · have hex : ∃ c1 ∈ cs, c1.opType ≠ "tfc.scalarToTensor" := by
            by_contra hno
            exact hsc fun c1 h1 => by
              by_contra hne
              exact hno ⟨c1, h1, hne⟩
          rw [hany hex]
          simp
      · intro p hp s hs
        rcases List.mem_cons.mp (by simpa [List.zip_cons_cons] using hp) with rfl | hp
        · simp [appendedDeviceStrings, SILValue.literalText] at hs
          exact hs
        · exact hstr p hp s hs

/-- C17. A graph with no explicit devices uses only the target device: every
sequence of calls of `handleDevicePlacement` on one configuration, all with an
empty `opDevice` and starting from an empty `usedDeviceTypes`, returns; the
final `usedDeviceTypes` is empty if every op of the sequence is
"tfc.scalarToTensor" and is exactly the configuration's `deviceType` otherwise;
and every device string appended along the way is `getDeviceString` of that
`deviceType`, so it is "TPU_SYSTEM" exactly when `isTPUEnabled` holds. -/
theorem usedDeviceTypes_of_no_explicit_device (cfg : GraphGlobalConfiguration)
    (B : SILBuilder) (cs : List PlacementCall)
    (hempty : cfg.usedDeviceTypes = ∅) (hdev : ∀ c ∈ cs, c.opDevice = "") :
    ∃ cfg1 B1 rs, runPlacements cfg B cs = .ok (cfg1, B1, rs) ∧
      rs.length = cs.length ∧
      ((∀ c ∈ cs, c.opType = "tfc.scalarToTensor") → cfg1.usedDeviceTypes = ∅) ∧
      ((∃ c ∈ cs, c.opType ≠ "tfc.scalarToTensor") →
        cfg1.usedDeviceTypes = {cfg.deviceType}) ∧
      ∀ p ∈ cs.zip rs, ∀ s ∈ appendedDeviceStrings p.1 p.2,
        s = getDeviceString cfg.deviceType ∧
        (s = "TPU_SYSTEM" ↔ cfg.isTPUEnabled = true) := by
  obtain ⟨cfg1, B1, rs, hrun, hlen, _, hall, hany, hstr⟩ :=
    runPlacements_of_empty_devices cs cfg B hdev
  refine ⟨cfg1, B1, rs, hrun, hlen, ?_, ?_, ?_⟩
  · intro h
    rw [hall h, hempty]
  · intro h
    rw [hany h, hempty]
    rfl
  · intro p hp s hs
    have hsd := hstr p hp s hs
    refine ⟨hsd, ?_⟩
    rw [hsd, getDeviceString_eq_TPU_iff]
    simp [GraphGlobalConfiguration.isTPUEnabled]

/-- C17, at a configuration targeting TPU and the calls "tfc.scalarToTensor",
"Add", "Mul", none with a device: the run returns with the used set exactly TPU
and both appended strings "TPU_SYSTEM". -/
theorem usedDeviceTypes_of_no_explicit_device_witness :
    runPlacements { deviceType := DeviceType.TPU } ⟨[]⟩
      [⟨"tfc.scalarToTensor", "", ⟨1⟩, [SILValue.other 0], "tfc.scalarToTensor"⟩,
       ⟨"Add", "", ⟨2⟩, [SILValue.other 1, SILValue.other 2], "Add"⟩,
       ⟨"Mul", "", ⟨3⟩, [SILValue.other 3], "Mul"⟩] =
      .ok ({ deviceType := DeviceType.TPU, usedDeviceTypes := {DeviceType.TPU} },
        ⟨[⟨⟨2⟩, "TPU_SYSTEM", Encoding.UTF8⟩, ⟨⟨3⟩, "TPU_SYSTEM", Encoding.UTF8⟩]⟩,
        [⟨false, { deviceType := DeviceType.TPU }, ⟨[]⟩,
            [SILValue.other 0], "tfc.scalarToTensor"⟩,
         ⟨true, { deviceType := DeviceType.TPU, usedDeviceTypes := {DeviceType.TPU} },
            ⟨[⟨⟨2⟩, "TPU_SYSTEM", Encoding.UTF8⟩]⟩,
            [SILValue.other 1, SILValue.other 2,
              SILValue.stringLiteral ⟨⟨2⟩, "TPU_SYSTEM", Encoding.UTF8⟩], "Add,device"⟩,
         ⟨true, { deviceType := DeviceType.TPU, usedDeviceTypes := {DeviceType.TPU} },
            ⟨[⟨⟨2⟩, "TPU_SYSTEM", Encoding.UTF8⟩, ⟨⟨3⟩, "TPU_SYSTEM", Encoding.UTF8⟩]⟩,
            [SILValue.other 3,
              SILValue.stringLiteral ⟨⟨3⟩, "TPU_SYSTEM", Encoding.UTF8⟩], "Mul,device"⟩]) ∧
    ∃ cfg1 B1 rs, runPlacements { deviceType := DeviceType.TPU } ⟨[]⟩
        [⟨"tfc.scalarToTensor", "", ⟨1⟩, [SILValue.other 0], "tfc.scalarToTensor"⟩,
         ⟨"Add", "", ⟨2⟩, [SILValue.other 1, SILValue.other 2], "Add"⟩,
         ⟨"Mul", "", ⟨3⟩, [SILValue.other 3], "Mul"⟩] = .ok (cfg1, B1, rs) ∧
      cfg1.usedDeviceTypes = {DeviceType.TPU} :=
  have h := usedDeviceTypes_of_no_explicit_device { deviceType := DeviceType.TPU } ⟨[]⟩
    [⟨"tfc.scalarToTensor", "", ⟨1⟩, [SILValue.other 0], "tfc.scalarToTensor"⟩,
     ⟨"Add", "", ⟨2⟩, [SILValue.other 1, SILValue.other 2], "Add"⟩,
     ⟨"Mul", "", ⟨3⟩, [SILValue.other 3], "Mul"⟩] rfl (by decide)
  ⟨by decide,
   h.elim fun cfg1 h1 => h1.elim fun B1 h2 => h2.elim fun rs h3 =>
     ⟨cfg1, B1, rs, h3.1, h3.2.2.2.1 ⟨⟨"Add", "", ⟨2⟩, [SILValue.other 1, SILValue.other 2],
       "Add"⟩, by decide, by decide⟩⟩⟩

/-! Section: Facts about decoding and canonicalization -/

theorem splitAtCommas_ne_nil (cs : List Char) : splitAtCommas cs ≠ [] := by
  cases cs with
  | nil => simp [splitAtCommas]
  | cons c cs =>
    simp only [splitAtCommas]
    split
    · simp
    · split <;> simp

/-- Splitting at a comma: the pieces before it, then the pieces after it. -/
theorem splitAtCommas_append_comma (xs ys : List Char) :
    splitAtCommas (xs ++ ',' :: ys) = splitAtCommas xs ++ splitAtCommas ys := by
  induction xs with
  | nil => simp [splitAtCommas]
  | cons c cs ih =>
    by_cases hc : c = ','
    · simp [splitAtCommas, hc, ih]
    · simp only [List.cons_append, splitAtCommas, hc, if_false]
      have ih1 : splitAtCommas (cs.append (',' :: ys)) =
          splitAtCommas cs ++ splitAtCommas ys := ih
      rw [ih1]
      cases hs : splitAtCommas cs with
      | nil => exact absurd hs (splitAtCommas_ne_nil cs)
      | cons piece pieces => rfl

theorem splitAtCommas_device :
    splitAtCommas ("device" : String).data = [("device" : String).data] := by
  decide

theorem classifySuffixes_append (g : String → Option OperandClass) (ss : List String)
    (s : String) (c : OperandClass) :
    ∀ classes, classifySuffixes g ss = some classes → g s = some c →
      classifySuffixes g (ss ++ [s]) = some (classes ++ [(s, c)]) := by
  induction ss with
  | nil =>
    intro classes h hs
    simp only [classifySuffixes] at h
    cases h
    simp [classifySuffixes, hs]
  | cons t ts ih =>
    intro classes h hs
    simp only [classifySuffixes] at h
    split at h
    · cases h
    · rename_i opClass hopc
      split at h
      · cases h
      · rename_i rest hrest
        cases h
        simp [classifySuffixes, hopc, ih rest hrest hs]

theorem classifySuffixes_length (g : String → Option OperandClass) (ss : List String) :
    ∀ classes, classifySuffixes g ss = some classes → classes.length = ss.length := by
  induction ss with
  | nil =>
    intro classes h
    simp only [classifySuffixes] at h
    cases h
    rfl
  | cons t ts ih =>
    intro classes h
    simp only [classifySuffixes] at h
    split at h
    · cases h
    · split at h
      · cases h
      · rename_i rest hrest
        cases h
        simp [ih rest hrest]

/-- One unknown suffix anywhere fails the lookup of the whole list. -/
theorem classifySuffixes_eq_none (g : String → Option OperandClass) (ss : List String)
    (h : ∃ s ∈ ss, g s = none) : classifySuffixes g ss = none := by
  induction ss with
  | nil =>
    obtain ⟨s, hs, _⟩ := h
    cases hs
  | cons t ts ih =>
    obtain ⟨s, hs, hg⟩ := h
    simp only [classifySuffixes]
    cases ht : g t with
    | none => rfl
    | some opClass =>
      rcases List.mem_cons.mp hs with rfl | hs
      · rw [hg] at ht
        cases ht
      · simp [ih ⟨s, hs, hg⟩]

theorem classifyInputs_length (m : SILValue → Bool) (vs : List SILValue) :
    (classifyInputs m vs).length = vs.length := by
  induction vs with
  | nil => rfl
  | cons v vs ih =>
    simp only [classifyInputs]
    split <;> simp [ih]

theorem classifyInputs_isInputClass (m : SILValue → Bool) (vs : List SILValue) :
    ∀ c ∈ classifyInputs m vs, c.isInputClass = true := by
  induction vs with
  | nil =>
    intro c hc
    cases hc
  | cons v vs ih =>
    intro c hc
    simp only [classifyInputs] at hc
    split at hc
    · rcases List.mem_cons.mp hc with rfl | hc
      · rfl
      · obtain ⟨_, _, rfl⟩ := List.mem_map.mp hc
        rfl
    · rcases List.mem_cons.mp hc with rfl | hc
      · rfl
      · exact ih c hc

theorem rewriteOperands_length (T : DecoderTables) (vs : List SILValue) :
    ∀ entries, (rewriteOperands T vs entries).length = vs.length := by
  induction vs with
  | nil =>
    intro entries
    simp [rewriteOperands]
  | cons v vs ih =>
    intro entries
    cases entries with
    | nil => simp [rewriteOperands]
    | cons entry entries => simp [rewriteOperands, ih]

/-- Rewriting leaves a leading run of inputs as it is. -/
theorem rewriteOperands_take (T : DecoderTables) (ins : List OperandClass) :
    ∀ (vs : List SILValue) (attributes : List (String × OperandClass)),
      (∀ c ∈ ins, c.isInputClass = true) →
      (rewriteOperands T vs ((ins.map fun c => ("", c)) ++ attributes)).take ins.length =
        vs.take ins.length := by
  induction ins with
  | nil =>
    intro vs attributes _
    simp
  | cons c cs ih =>
    intro vs attributes hin
    cases vs with
    | nil => simp [rewriteOperands]
    | cons v vs =>
      have hc : c.isInputClass = true := hin c (List.mem_cons_self _ _)
      simp only [List.map_cons, List.cons_append, rewriteOperands, hc, if_true,
        List.length_cons, List.take_succ_cons]
      exact congrArg (List.cons v)
        (ih vs attributes fun c1 h1 => hin c1 (List.mem_cons_of_mem _ h1))

theorem inputsPrecedeAttributes_append_Normal (classes : List OperandClass)
    (h : inputsPrecedeAttributes classes = true) :
    inputsPrecedeAttributes (classes ++ [OperandClass.Normal]) = true := by
  unfold inputsPrecedeAttributes at h ⊢
  induction classes with
  | nil => decide
  | cons c cs ih =>
    by_cases hc : c.isInputClass = true
    · simp only [List.cons_append, List.dropWhile_cons, hc, if_true] at h ⊢
      exact ih h
    · simp only [List.cons_append, List.dropWhile_cons, hc] at h ⊢
      simp only [Bool.false_eq_true, if_false] at h ⊢
      rw [← List.cons_append, List.all_append, h]
      decide

/-- What a successful decoding says about the instruction. -/
theorem decode_decoded_inv {T : DecoderTables} {inst : BuiltinInst} {info : SILTensorOpInfo}
    (h : SILTensorOpInfo.decode T (SILInstruction.builtin inst) = DecodeResult.decoded info) :
    ∃ opName suffixes attributes,
      splitAtCommas inst.name.data = opName :: suffixes ∧ opName ≠ [] ∧
      classifySuffixes T.getOperandClass (suffixes.map String.mk) = some attributes ∧
      attributes.length ≤ inst.operands.length ∧
      inputsPrecedeAttributes
        ((((classifyInputs T.isListMarker
            (inst.operands.take (inst.operands.length - attributes.length))).map
              fun c => ("", c)) ++ attributes).map Prod.snd) = true ∧
      info = ⟨inst, inst.name, String.mk opName,
        ((classifyInputs T.isListMarker
            (inst.operands.take (inst.operands.length - attributes.length))).map
              fun c => ("", c)) ++ attributes⟩ := by
  simp only [SILTensorOpInfo.decode] at h
  split at h
  · cases h
  · rename_i opName suffixes hsplit
    split at h
    · cases h
    · rename_i hop
      split at h
      · cases h
      · rename_i attributes hattr
        split at h
        · cases h
        · rename_i hlen
          split at h
          · rename_i hord
            cases h
            exact ⟨opName, suffixes, attributes, hsplit, hop, hattr, Nat.le_of_not_lt hlen,
              hord, rfl⟩
          · cases h

/-- The facts that make a decoding succeed. -/
theorem decode_eq_decoded (T : DecoderTables) (inst : BuiltinInst)
    (opName : List Char) (suffixes : List (List Char))
    (attributes : List (String × OperandClass))
    (hsplit : splitAtCommas inst.name.data = opName :: suffixes) (hop : opName ≠ [])
    (hattr : classifySuffixes T.getOperandClass (suffixes.map String.mk) = some attributes)
    (hlen : attributes.length ≤ inst.operands.length)
    (hord : inputsPrecedeAttributes
        ((((classifyInputs T.isListMarker
            (inst.operands.take (inst.operands.length - attributes.length))).map
              fun c => ("", c)) ++ attributes).map Prod.snd) = true) :
    SILTensorOpInfo.decode T (SILInstruction.builtin inst) =
      DecodeResult.decoded ⟨inst, inst.name, String.mk opName,
        ((classifyInputs T.isListMarker
            (inst.operands.take (inst.operands.length - attributes.length))).map
              fun c => ("", c)) ++ attributes⟩ := by
  simp only [SILTensorOpInfo.decode, hsplit, hop, if_false, hattr, Nat.not_lt.mpr hlen, hord,
    if_true]

/-- The inputs of a decoded op are still the leading operands after rewriting. -/
theorem rewriteOperands_take_inputs (T : DecoderTables) (operands : List SILValue)
    (attributes : List (String × OperandClass)) (hlen : attributes.length ≤ operands.length) :
    (rewriteOperands T operands
        (((classifyInputs T.isListMarker
            (operands.take (operands.length - attributes.length))).map
              fun c => ("", c)) ++ attributes)).take (operands.length - attributes.length) =
      operands.take (operands.length - attributes.length) := by
  have hl : (classifyInputs T.isListMarker
      (operands.take (operands.length - attributes.length))).length =
      operands.length - attributes.length := by
    rw [classifyInputs_length, List.length_take]
    omega
  have h := rewriteOperands_take T
    (classifyInputs T.isListMarker (operands.take (operands.length - attributes.length)))
    operands attributes (classifyInputs_isInputClass _ _)
  rw [hl] at h
  exact h

/-- Decoding again after the operands were rewritten, with the name as it was:
the same op name and the same operand records. -/
theorem decode_rewritten {T : DecoderTables} {inst : BuiltinInst} {info : SILTensorOpInfo}
    (hdec : SILTensorOpInfo.decode T (SILInstruction.builtin inst) = DecodeResult.decoded info)
    (loc : SILLocation) (device : String) :
    SILTensorOpInfo.decode T (SILInstruction.builtin
        ⟨inst.name, rewriteOperands T inst.operands info.operandClasses, loc, device⟩) =
      DecodeResult.decoded
        ⟨⟨inst.name, rewriteOperands T inst.operands info.operandClasses, loc, device⟩,
          inst.name, info.opName, info.operandClasses⟩ := by
  obtain ⟨opName, suffixes, attributes, hsplit, hop, hattr, hlen, hord, rfl⟩ :=
    decode_decoded_inv hdec
  have key := rewriteOperands_take_inputs T inst.operands attributes hlen
  have h := decode_eq_decoded T
    ⟨inst.name, rewriteOperands T inst.operands
      (((classifyInputs T.isListMarker
          (inst.operands.take (inst.operands.length - attributes.length))).map
            fun c => ("", c)) ++ attributes), loc, device⟩
    opName suffixes attributes hsplit hop hattr
    (by simpa only [rewriteOperands_length] using hlen)
    (by simpa only [rewriteOperands_length, key] using hord)
  simpa only [rewriteOperands_length, key] using h

/-- Decoding again after the operands were rewritten and placement appended a
device operand and the ",device" suffix: the same op name, and the same operand
records followed by the one of the device operand. -/
theorem decode_rewritten_device {T : DecoderTables} {inst : BuiltinInst}
    {info : SILTensorOpInfo}
    (hdec : SILTensorOpInfo.decode T (SILInstruction.builtin inst) = DecodeResult.decoded info)
    (hdev : T.getOperandClass "device" = some OperandClass.Normal)
    (v : SILValue) (loc : SILLocation) (device : String) :
    SILTensorOpInfo.decode T (SILInstruction.builtin
        ⟨inst.name ++ ",device", rewriteOperands T inst.operands info.operandClasses ++ [v],
          loc, device⟩) =
      DecodeResult.decoded
        ⟨⟨inst.name ++ ",device", rewriteOperands T inst.operands info.operandClasses ++ [v],
            loc, device⟩,
          inst.name ++ ",device", info.opName,
          info.operandClasses ++ [("device", OperandClass.Normal)]⟩ := by
  obtain ⟨opName, suffixes, attributes, hsplit, hop, hattr, hlen, hord, rfl⟩ :=
    decode_decoded_inv hdec
  have hsplit1 : splitAtCommas (inst.name ++ ",device").data =
      opName :: (suffixes ++ [("device" : String).data]) := by
    have hd : (inst.name ++ ",device").data = inst.name.data ++ ',' :: ("device" : String).data :=
      String.data_append _ _
    rw [hd, splitAtCommas_append_comma, hsplit, splitAtCommas_device]
    rfl
  have hattr1 : classifySuffixes T.getOperandClass
      ((suffixes ++ [("device" : String).data]).map String.mk) =
      some (attributes ++ [("device", OperandClass.Normal)]) := by
    rw [List.map_append]
    exact classifySuffixes_append T.getOperandClass _ "device" OperandClass.Normal attributes
      hattr hdev
  have hl : (rewriteOperands T inst.operands
      (((classifyInputs T.isListMarker
          (inst.operands.take (inst.operands.length - attributes.length))).map
            fun c => ("", c)) ++ attributes) ++ [v]).length -
      (attributes ++ [("device", OperandClass.Normal)]).length =
      inst.operands.length - attributes.length := by
    simp only [List.length_append, rewriteOperands_length, List.length_singleton]
    omega
  have key : (rewriteOperands T inst.operands
      (((classifyInputs T.isListMarker
          (inst.operands.take (inst.operands.length - attributes.length))).map
            fun c => ("", c)) ++ attributes) ++ [v]).take
      (inst.operands.length - attributes.length) =
      inst.operands.take (inst.operands.length - attributes.length) := by
    rw [List.take_append_of_le_length (by rw [rewriteOperands_length]; omega)]
    exact rewriteOperands_take_inputs T inst.operands attributes hlen
  have hord1 : inputsPrecedeAttributes
      ((((classifyInputs T.isListMarker
          (inst.operands.take (inst.operands.length - attributes.length))).map
            fun c => ("", c)) ++ (attributes ++ [("device", OperandClass.Normal)])).map
              Prod.snd) = true := by
    rw [← List.append_assoc, List.map_append]
    exact inputsPrecedeAttributes_append_Normal _ hord
  have h := decode_eq_decoded T
    ⟨inst.name ++ ",device", rewriteOperands T inst.operands
      (((classifyInputs T.isListMarker
          (inst.operands.take (inst.operands.length - attributes.length))).map
            fun c => ("", c)) ++ attributes) ++ [v], loc, device⟩
    opName (suffixes ++ [("device" : String).data])
    (attributes ++ [("device", OperandClass.Normal)]) hsplit1 hop hattr1
    (by simp only [List.length_append, rewriteOperands_length, List.length_singleton]; omega)
    (by simpa only [hl, key] using hord1)
  simpa only [hl, key, List.append_assoc] using h

theorem decode_decoded_fields {T : DecoderTables} {inst : BuiltinInst} {info : SILTensorOpInfo}
    (hdec : SILTensorOpInfo.decode T (SILInstruction.builtin inst) = DecodeResult.decoded info) :
    info.inst = inst ∧ info.builtinName = inst.name := by
  obtain ⟨_, _, _, _, _, _, _, _, rfl⟩ := decode_decoded_inv hdec
  exact ⟨rfl, rfl⟩

/-- Canonicalizing a decoded op with a configuration, when the call returns:
for the pseudo-op the instruction keeps its name and gets the rewritten
operands; for any other op it gets ",device" and one more operand. -/
theorem canonicalizeOperands_ok_cases {T : DecoderTables} {inst : BuiltinInst}
    {info : SILTensorOpInfo} {cfg : GraphGlobalConfiguration} {B : SILBuilder}
    {inst1 : BuiltinInst} {cfg1 : Option GraphGlobalConfiguration} {B1 : SILBuilder}
    (hdec : SILTensorOpInfo.decode T (SILInstruction.builtin inst) = DecodeResult.decoded info)
    (hcan : info.canonicalizeOperands T (some cfg) B = .ok (inst1, cfg1, B1)) :
    (info.opName = "tfc.scalarToTensor" ∧ cfg1 = some cfg ∧ B1 = B ∧
      ∃ device, inst1 =
        ⟨inst.name, rewriteOperands T inst.operands info.operandClasses, inst.loc, device⟩) ∨
    (info.opName ≠ "tfc.scalarToTensor" ∧
      ∃ v device, inst1 =
        ⟨inst.name ++ ",device", rewriteOperands T inst.operands info.operandClasses ++ [v],
          inst.loc, device⟩) := by
  obtain ⟨hinst, hname⟩ := decode_decoded_fields hdec
  simp only [SILTensorOpInfo.canonicalizeOperands, hinst, hname] at hcan
  split at hcan
  · cases hcan
  · rename_i r hp
    cases hcan
    rcases handleDevicePlacement_ok_cases hp with ⟨ht, _, rfl⟩ | ⟨ht, d, _, rfl⟩
    · exact Or.inl ⟨ht, rfl, rfl, _, rfl⟩
    · exact Or.inr ⟨ht, _, _, rfl⟩

/-! Section: Claims about decoding -/

/-- C13 fails as stated. The pseudo-op "tfc.scalarToTensor" decodes to one
`Input` operand; canonicalizing it with a configuration returns an instruction
with the same name and operand, because placement gives the pseudo-op no device;
decoded again it has the one `Input` operand and no trailing `Normal` device
operand. -/
theorem canonicalize_redecode_counterexample :
    SILTensorOpInfo.decode exampleTables (SILInstruction.builtin
        ⟨"tfc.scalarToTensor", [SILValue.other 0], ⟨7⟩, ""⟩) =
      DecodeResult.decoded
        ⟨⟨"tfc.scalarToTensor", [SILValue.other 0], ⟨7⟩, ""⟩, "tfc.scalarToTensor",
          "tfc.scalarToTensor", [("", OperandClass.Input)]⟩ ∧
    SILTensorOpInfo.canonicalizeOperands exampleTables
        ⟨⟨"tfc.scalarToTensor", [SILValue.other 0], ⟨7⟩, ""⟩, "tfc.scalarToTensor",
          "tfc.scalarToTensor", [("", OperandClass.Input)]⟩ (some {}) ⟨[]⟩ =
      .ok (⟨"tfc.scalarToTensor", [SILValue.other 0], ⟨7⟩, ""⟩, some {}, ⟨[]⟩) ∧
    ¬ ∃ info1, SILTensorOpInfo.decode exampleTables (SILInstruction.builtin
        ⟨"tfc.scalarToTensor", [SILValue.other 0], ⟨7⟩, ""⟩) = DecodeResult.decoded info1 ∧
      info1.operandClasses.map Prod.snd = [OperandClass.Input] ++ [OperandClass.Normal] := by
  have hdec : SILTensorOpInfo.decode exampleTables (SILInstruction.builtin
        ⟨"tfc.scalarToTensor", [SILValue.other 0], ⟨7⟩, ""⟩) =
      DecodeResult.decoded
        ⟨⟨"tfc.scalarToTensor", [SILValue.other 0], ⟨7⟩, ""⟩, "tfc.scalarToTensor",
          "tfc.scalarToTensor", [("", OperandClass.Input)]⟩ := by decide
  refine ⟨hdec, by decide, ?_⟩
  rintro ⟨info1, h1, hcls⟩
  rw [hdec] at h1
  cases h1
  exact absurd hcls (by decide)

/-- C13, amended. Let the suffix table give "device" the class `Normal`. For
every decoded op other than "tfc.scalarToTensor", canonicalizing with a
configuration returns whenever the explicit device is empty or one of the three
canonical device strings, and whenever it returns, decoding the instruction it
built gives the same op name and the original operand-class list followed by
exactly one trailing operand of class `Normal`, the device operand. For the
pseudo-op "tfc.scalarToTensor" with no explicit device, canonicalizing returns
and the instruction decodes to the original operand-class list, with no device
operand. -/
theorem canonicalize_redecode (T : DecoderTables) (inst : BuiltinInst)
    (info : SILTensorOpInfo) (cfg : GraphGlobalConfiguration) (B : SILBuilder)
    (hdec : SILTensorOpInfo.decode T (SILInstruction.builtin inst) = DecodeResult.decoded info)
    (hdev : T.getOperandClass "device" = some OperandClass.Normal) :
    (info.opName ≠ "tfc.scalarToTensor" →
      ((inst.opDevice = "" ∨ inst.opDevice = "/device:CPU:0" ∨
          inst.opDevice = "/device:GPU:0" ∨ inst.opDevice = "TPU_SYSTEM") →
        ∃ res, info.canonicalizeOperands T (some cfg) B = .ok res) ∧
      ∀ inst1 cfg1 B1, info.canonicalizeOperands T (some cfg) B = .ok (inst1, cfg1, B1) →
        ∃ info1, SILTensorOpInfo.decode T (SILInstruction.builtin inst1) =
            DecodeResult.decoded info1 ∧
          info1.opName = info.opName ∧
          info1.operandClasses = info.operandClasses ++ [("device", OperandClass.Normal)] ∧
          info1.operandClasses.map Prod.snd =
            info.operandClasses.map Prod.snd ++ [OperandClass.Normal]) ∧
    (info.opName = "tfc.scalarToTensor" → inst.opDevice = "" →
      ∃ inst1 info1, info.canonicalizeOperands T (some cfg) B = .ok (inst1, some cfg, B) ∧
        SILTensorOpInfo.decode T (SILInstruction.builtin inst1) = DecodeResult.decoded info1 ∧
        info1.operandClasses = info.operandClasses) := by
  obtain ⟨hinst, hname⟩ := decode_decoded_fields hdec
  refine ⟨fun hne => ⟨?_, ?_⟩, ?_⟩
  · intro hd
    simp only [SILTensorOpInfo.canonicalizeOperands, hinst, hname]
    rcases hd with he | hcanon
    · rw [he, handleDevicePlacement_of_empty _ _ _ _ _ _ hne]
      exact ⟨_, rfl⟩
    · have hk : ∃ d, OpDeviceType inst.opDevice = .ok d := by
        rcases hcanon with h | h | h
        · exact ⟨DeviceType.CPU, by rw [h]; decide⟩
        · exact ⟨DeviceType.GPU, by rw [h]; decide⟩
        · exact ⟨DeviceType.TPU, by rw [h]; decide⟩
      obtain ⟨d, hk⟩ := hk
      rw [handleDevicePlacement_of_explicit _ _ _ d _ _ _ _ hne hk]
      exact ⟨_, rfl⟩
  · intro inst1 cfg1 B1 hcan
    rcases canonicalizeOperands_ok_cases hdec hcan with ⟨ht, _⟩ | ⟨_, v, device, rfl⟩
    · exact absurd ht hne
    · exact ⟨_, decode_rewritten_device hdec hdev v inst.loc device, rfl, rfl, by simp⟩
  · intro ht he
    refine ⟨⟨inst.name, rewriteOperands T inst.operands info.operandClasses, inst.loc, ""⟩, _,
      ?_, decode_rewritten hdec inst.loc "", rfl⟩
    simp only [SILTensorOpInfo.canonicalizeOperands, hinst, hname, ht, he,
      handleDevicePlacement_of_scalarToTensor, List.drop_length, List.filterMap_nil]

/-- C13 amended, at the op "Const" with one input and the attributes dtype and
tensor (the latter an indirect operand), under a configuration targeting GPU:
the canonicalized instruction is "Const,dtype,tensor,device" with a fourth
operand "/device:GPU:0", and it decodes to the three original classes followed
by `Normal`. -/
theorem canonicalize_redecode_witness :
    SILTensorOpInfo.decode exampleTables (SILInstruction.builtin
        ⟨"Const,dtype,tensor", [SILValue.other 0, SILValue.other 1, SILValue.other 200],
          ⟨7⟩, ""⟩) =
      DecodeResult.decoded
        ⟨⟨"Const,dtype,tensor", [SILValue.other 0, SILValue.other 1, SILValue.other 200],
            ⟨7⟩, ""⟩,
          "Const,dtype,tensor", "Const",
          [("", OperandClass.Input), ("dtype", OperandClass.DType),
           ("tensor", OperandClass.Tensor)]⟩ ∧
    SILTensorOpInfo.canonicalizeOperands exampleTables
        ⟨⟨"Const,dtype,tensor", [SILValue.other 0, SILValue.other 1, SILValue.other 200],
            ⟨7⟩, ""⟩,
          "Const,dtype,tensor", "Const",
          [("", OperandClass.Input), ("dtype", OperandClass.DType),
           ("tensor", OperandClass.Tensor)]⟩
        (some { deviceType := DeviceType.GPU }) ⟨[]⟩ =
      .ok (⟨"Const,dtype,tensor,device",
            [SILValue.other 0, SILValue.other 1, SILValue.other 1200,
             SILValue.stringLiteral ⟨⟨7⟩, "/device:GPU:0", Encoding.UTF8⟩],
            ⟨7⟩, "/device:GPU:0"⟩,
          some { deviceType := DeviceType.GPU, usedDeviceTypes := {DeviceType.GPU} },
          ⟨[⟨⟨7⟩, "/device:GPU:0", Encoding.UTF8⟩]⟩) ∧
    ∃ info1, SILTensorOpInfo.decode exampleTables (SILInstruction.builtin
        ⟨"Const,dtype,tensor,device",
          [SILValue.other 0, SILValue.other 1, SILValue.other 1200,
           SILValue.stringLiteral ⟨⟨7⟩, "/device:GPU:0", Encoding.UTF8⟩],
          ⟨7⟩, "/device:GPU:0"⟩) = DecodeResult.decoded info1 ∧
      info1.opName = "Const" ∧
      info1.operandClasses =
        [("", OperandClass.Input), ("dtype", OperandClass.DType),
         ("tensor", OperandClass.Tensor)] ++ [("device", OperandClass.Normal)] ∧
      info1.operandClasses.map Prod.snd =
        [OperandClass.Input, OperandClass.DType, OperandClass.Tensor] ++
          [OperandClass.Normal] :=
  have hdec : SILTensorOpInfo.decode exampleTables (SILInstruction.builtin
        ⟨"Const,dtype,tensor", [SILValue.other 0, SILValue.other 1, SILValue.other 200],
          ⟨7⟩, ""⟩) = DecodeResult.decoded _ := by decide
  have hcan : SILTensorOpInfo.canonicalizeOperands exampleTables
        ⟨⟨"Const,dtype,tensor", [SILValue.other 0, SILValue.other 1, SILValue.other 200],
            ⟨7⟩, ""⟩,
          "Const,dtype,tensor", "Const",
          [("", OperandClass.Input), ("dtype", OperandClass.DType),
           ("tensor", OperandClass.Tensor)]⟩
        (some { deviceType := DeviceType.GPU }) ⟨[]⟩ = .ok (_, _, _) := by decide
  ⟨hdec, hcan,
   ((canonicalize_redecode exampleTables _ _ { deviceType := DeviceType.GPU } ⟨[]⟩ hdec
      (by decide)).1 (by decide)).2 _ _ _ hcan⟩

/-- C14. Unknown suffixes are decode errors: for every builtin whose name has an
op name and carries a modifier suffix with no entry in the operand-class table
(`getOperandClass` returns no class for it), `decode` reports the
malformed-signature diagnostic; it gives no descriptor, so the operand of that
suffix is classified neither as `Normal` nor as anything else, and it does not
answer "not a tensor op" either. -/
theorem decode_unknown_suffix_malformed (T : DecoderTables) (inst : BuiltinInst)
    (opName : List Char) (suffixes : List (List Char))
    (hsplit : splitAtCommas inst.name.data = opName :: suffixes) (hop : opName ≠ [])
    (hunknown : ∃ suffix ∈ suffixes, T.getOperandClass (String.mk suffix) = none) :
    SILTensorOpInfo.decode T (SILInstruction.builtin inst) =
        DecodeResult.malformed "unknown modifier suffix" ∧
      (∀ info, SILTensorOpInfo.decode T (SILInstruction.builtin inst) ≠
        DecodeResult.decoded info) ∧
      SILTensorOpInfo.decode T (SILInstruction.builtin inst) ≠ DecodeResult.notTensorOp := by
  have hnone : classifySuffixes T.getOperandClass (suffixes.map String.mk) = none := by
    obtain ⟨suffix, hmem, hg⟩ := hunknown
    exact classifySuffixes_eq_none _ _ ⟨String.mk suffix, List.mem_map_of_mem _ hmem, hg⟩
  have hm : SILTensorOpInfo.decode T (SILInstruction.builtin inst) =
      DecodeResult.malformed "unknown modifier suffix" := by
    simp only [SILTensorOpInfo.decode, hsplit, hop, if_false, hnone]
  refine ⟨hm, fun info h => ?_, fun h => ?_⟩
  · rw [hm] at h
    cases h
  · rw [hm] at h
    cases h

/-- C14, at the builtin "Const,dtype,bogus" with three operands: "bogus" has no
entry in the example table, and decoding reports the diagnostic. -/
theorem decode_unknown_suffix_malformed_witness :
    splitAtCommas ("Const,dtype,bogus" : String).data =
      ("Const" : String).data :: [("dtype" : String).data, ("bogus" : String).data] ∧
    exampleTables.getOperandClass "bogus" = none ∧
    SILTensorOpInfo.decode exampleTables (SILInstruction.builtin
        ⟨"Const,dtype,bogus", [SILValue.other 0, SILValue.other 1, SILValue.other 2],
          ⟨7⟩, ""⟩) = DecodeResult.malformed "unknown modifier suffix" :=
  ⟨by decide, by decide,
   (decode_unknown_suffix_malformed exampleTables
      ⟨"Const,dtype,bogus", [SILValue.other 0, SILValue.other 1, SILValue.other 2], ⟨7⟩, ""⟩
      ("Const" : String).data [("dtype" : String).data, ("bogus" : String).data]
      (by decide) (by decide)
      ⟨("bogus" : String).data, by decide, by decide⟩).1⟩

end swift.tf
